import Mathlib

/-!
Shallow embedding of the multi-business booking platform (`app.py`) and
proofs about its request handlers: the scheduled-call poller, booking
approval/rejection, form submission intake, API-key gated reads, client
deletion, application creation, and the dashboard trend aggregations.
-/

namespace MBSS

/-- A naive Python `datetime` at minute precision: a civil day index
(days since 1970-01-01) paired with the minute of the day.  Python's
chronological comparison of naive datetimes coincides with the
lexicographic order on this pair, and `timedelta(days = n)` arithmetic is
plain integer arithmetic on `days`. -/
structure PyDateTime where
  days : Int
  mins : Int
deriving Repr, DecidableEq

/-- Chronological `<=` on naive datetimes (lexicographic). -/
def PyDateTime.ble (a b : PyDateTime) : Bool :=
  decide (a.days < b.days ∨ (a.days = b.days ∧ a.mins ≤ b.mins))

/-- Chronological `<` on naive datetimes (lexicographic). -/
def PyDateTime.blt (a b : PyDateTime) : Bool :=
  decide (a.days < b.days ∨ (a.days = b.days ∧ a.mins < b.mins))

/-- `t - timedelta(days = n)`. -/
def PyDateTime.subDays (t : PyDateTime) (n : Int) : PyDateTime :=
  { t with days := t.days - n }

/-- Day index of a civil date (Hinnant's `days_from_civil`), the inverse
of `civilFromDays`.  Used to build `PyDateTime` values from parsed
`YYYY-MM-DD` components. -/
def daysFromCivil (y m d : Int) : Int :=
  let y' := if m ≤ 2 then y - 1 else y
  let era := (if 0 ≤ y' then y' else y' - 399) / 400
  let yoe := y' - era * 400
  let doy := (153 * (if 2 < m then m - 3 else m + 9) + 2) / 5 + d - 1
  let doe := yoe * 365 + yoe / 4 - yoe / 100 + doy
  era * 146097 + doe - 719468

/-- Civil date `(year, month, day)` of a day index (Hinnant's
`civil_from_days`). -/
def civilFromDays (z : Int) : Int × Int × Int :=
  let z' := z + 719468
  let era := (if 0 ≤ z' then z' else z' - 146096) / 146097
  let doe := z' - era * 146097
  let yoe := (doe - doe / 1460 + doe / 36524 - doe / 146096) / 365
  let y := yoe + era * 400
  let doy := doe - (365 * yoe + yoe / 4 - yoe / 100)
  let mp := (5 * doy + 2) / 153
  let d := doy - (153 * mp + 2) / 5 + 1
  let m := if mp < 10 then mp + 3 else mp - 9
  (if m ≤ 2 then y + 1 else y, m, d)

/-- Python's `datetime.year`. -/
def PyDateTime.year (t : PyDateTime) : Int :=
  (civilFromDays t.days).1

/-- Leap-year test, as used by Python's calendar validation. -/
def isLeapYear (y : Int) : Bool :=
  (y % 4 == 0 && y % 100 != 0) || y % 400 == 0

/-- Number of days in a month, for calendar validation on parse. -/
def daysInMonth (y m : Int) : Int :=
  if m == 2 then (if isLeapYear y then 29 else 28)
  else if m == 4 || m == 6 || m == 9 || m == 11 then 30
  else 31

/-- Python's `datetime.replace(year = y)`: keeps month, day and time,
validating the resulting date the way the `datetime` constructor does;
`none` models the raised `ValueError` (e.g. replacing the year of
February 29 by a non-leap year). -/
def PyDateTime.replaceYear (t : PyDateTime) (y : Int) : Option PyDateTime :=
  let c := civilFromDays t.days
  if 1 ≤ y && y ≤ 9999 && 1 ≤ c.2.1 && c.2.1 ≤ 12
      && 1 ≤ c.2.2 && c.2.2 ≤ daysInMonth y c.2.1 then
    some { t with days := daysFromCivil y c.2.1 c.2.2 }
  else
    none

/-- Construct a `PyDateTime` from components, validating ranges the way
Python's `datetime` constructor does; `none` models a raised
`ValueError`. -/
def mkPyDateTime (y m d h mi : Int) : Option PyDateTime :=
  if 1 ≤ y && y ≤ 9999 && 1 ≤ m && m ≤ 12 && 1 ≤ d && d ≤ daysInMonth y m
      && 0 ≤ h && h < 24 && 0 ≤ mi && mi < 60 then
    some ⟨daysFromCivil y m d, h * 60 + mi⟩
  else
    none

/-! ### String helpers mirroring the Python string operations -/

/-- Value of a decimal digit character. -/
def digitVal (c : Char) : Int :=
  Int.ofNat (c.toNat - 48)

/-- Two-digit decimal field of a datetime string. -/
def parse2 (a b : Char) : Option Int :=
  if a.isDigit && b.isDigit then some (digitVal a * 10 + digitVal b) else none

/-- Four-digit decimal field of a datetime string. -/
def parse4 (a b c d : Char) : Option Int :=
  if a.isDigit && b.isDigit && c.isDigit && d.isDigit then
    some (digitVal a * 1000 + digitVal b * 100 + digitVal c * 10 + digitVal d)
  else
    none

/-- Core of the datetime parsers: a zero-padded `YYYY-MM-DD` date,
optionally followed by a separator accepted by `sepOk` and a
`HH:MM[:SS]` time, validated like Python's `datetime` constructor. -/
def parseDateTimeChars (sepOk : Char → Bool) : List Char → Option PyDateTime
  | [y1, y2, y3, y4, '-', m1, m2, '-', d1, d2] => do
      let y ← parse4 y1 y2 y3 y4
      let m ← parse2 m1 m2
      let d ← parse2 d1 d2
      mkPyDateTime y m d 0 0
  | [y1, y2, y3, y4, '-', m1, m2, '-', d1, d2, sep, h1, h2, ':', n1, n2] => do
      if sepOk sep then
        let y ← parse4 y1 y2 y3 y4
        let m ← parse2 m1 m2
        let d ← parse2 d1 d2
        let h ← parse2 h1 h2
        let n ← parse2 n1 n2
        mkPyDateTime y m d h n
      else
        none
  | [y1, y2, y3, y4, '-', m1, m2, '-', d1, d2, sep, h1, h2, ':', n1, n2, ':', s1, s2] => do
      if sepOk sep then
        let y ← parse4 y1 y2 y3 y4
        let m ← parse2 m1 m2
        let d ← parse2 d1 d2
        let h ← parse2 h1 h2
        let n ← parse2 n1 n2
        let s ← parse2 s1 s2
        if s < 60 then mkPyDateTime y m d h n else none
      else
        none
  | _ => none

/-- Python's `datetime.fromisoformat`: `YYYY-MM-DD[*HH:MM[:SS]]` where
`*` is any single separator character. -/
def pyFromIsoformat (s : String) : Option PyDateTime :=
  parseDateTimeChars (fun _ => true) s.data

/-- `datetime.strptime(s, "%Y-%m-%d %H:%M")` on zero-padded input. -/
def strptimeSpace (s : String) : Option PyDateTime :=
  match s.data with
  | [y1, y2, y3, y4, '-', m1, m2, '-', d1, d2, ' ', h1, h2, ':', n1, n2] =>
      parseDateTimeChars (fun c => c == ' ')
        [y1, y2, y3, y4, '-', m1, m2, '-', d1, d2, ' ', h1, h2, ':', n1, n2]
  | _ => none

/-- `datetime.strptime(s, "%Y-%m-%dT%H:%M")` on zero-padded input
(the `datetime-local` format expected by `submit_form`). -/
def strptimeTLocal (s : String) : Option PyDateTime :=
  match s.data with
  | [y1, y2, y3, y4, '-', m1, m2, '-', d1, d2, 'T', h1, h2, ':', n1, n2] =>
      parseDateTimeChars (fun c => c == 'T')
        [y1, y2, y3, y4, '-', m1, m2, '-', d1, d2, 'T', h1, h2, ':', n1, n2]
  | _ => none

/-- Python substring test `needle in hay`. -/
def containsSub (hay needle : String) : Bool :=
  hay.data.tails.any (fun t => needle.data.isPrefixOf t)

/-- Python whitespace, as stripped by `str.strip()`. -/
def isPySpace (c : Char) : Bool :=
  c == ' ' || c == '\t' || c == '\n' || c == '\r' || c == '\x0b' || c == '\x0c'

/-- Python `str.strip()`. -/
def pyStrip (s : String) : String :=
  ⟨((s.data.dropWhile isPySpace).reverse.dropWhile isPySpace).reverse⟩

/-- Successive `str.replace(c, "")` for each character in `bad`. -/
def removeChars (s : String) (bad : List Char) : String :=
  ⟨s.data.filter (fun c => !bad.contains c)⟩

/-- The phone cleanup in `api_submit`:
`phone.strip().replace(" ", "").replace("-", "").replace("(", "").replace(")", "")`. -/
def cleanPhone (p : String) : String :=
  removeChars (pyStrip p) [' ', '-', '(', ')']

/-- `any(char.isdigit() for char in s)`. -/
def hasDigit (s : String) : Bool :=
  s.data.any Char.isDigit

/-- `"".join(filter(str.isdigit, s))`. -/
def digitsOf (s : String) : String :=
  ⟨s.data.filter Char.isDigit⟩

/-- Python `str.lower()` (ASCII case folding). -/
def lowerStr (s : String) : String :=
  ⟨s.data.map Char.toLower⟩

/-- Python truthiness of a possibly-missing string value. -/
def pyTruthy : Option String → Bool
  | none => false
  | some s => !s.data.isEmpty

/-- Python `str(x)` on a possibly-`None` string. -/
def pyStr : Option String → String
  | none => "None"
  | some s => s

/-- `ai_reply[:100]`. -/
def strTake (s : String) (n : Nat) : String :=
  ⟨s.data.take n⟩

/-- Python `str.startswith(pre)`. -/
def pyStartsWith (s pre : String) : Bool :=
  pre.data.isPrefixOf s.data

/-! ### Document identifiers -/

/-- A Mongo `_id`: either a BSON `ObjectId` (24 hex characters) or a
plain string; the handlers probe both shapes. -/
inductive DocKey where
  | oid (s : String)
  | strId (s : String)
deriving Repr, DecidableEq

/-- Python `str(_id)`. -/
def DocKey.asStr : DocKey → String
  | .oid s => s
  | .strId s => s

/-- Hex-digit test for `ObjectId` validity. -/
def isHexChar (c : Char) : Bool :=
  c.isDigit || ('a' ≤ c && c ≤ 'f') || ('A' ≤ c && c ≤ 'F')

/-- Whether `ObjectId(s)` succeeds (24 hex characters). -/
def isValidOid (s : String) : Bool :=
  s.data.length == 24 && s.data.all isHexChar

/-- The `_id` of stored `ObjectId` documents is always a valid 24-hex
string; string `_id`s are unconstrained. -/
def oidWf : DocKey → Bool
  | .oid s => isValidOid s
  | .strId _ => true

/-! ### Document model (section 3 of the design: the Mongo collections) -/

/-- One entry of a `FormBuilder`'s `fields` list; the handlers read only
`label` and `name` (via `field.get`). -/
structure FormField where
  label : String
  name : String
deriving Repr, DecidableEq

/-- A `form_builders` document. -/
structure FormBuilderDoc where
  key : DocKey
  client_id : String
  app_id : String
  app_name : String
  slug : String
  fields : List FormField
  api_key : String
  created_at : PyDateTime
deriving Repr, DecidableEq

/-- A `client_apps` document (an Application). -/
structure ClientAppDoc where
  key : DocKey
  client_id : String
  app_name : String
  slug : String
  created_at : PyDateTime
  submissions : Nat
deriving Repr, DecidableEq

/-- A `clients` document. -/
structure ClientDoc where
  key : DocKey
  company_name : String
  email : String
  password : String
  role : String
  name : String
  number : String
  phone : String
deriving Repr, DecidableEq

/-- An `llm_settings` document. -/
structure LlmSettingsDoc where
  client_id : String
  app_name : String
  default_prompt : String
  custom_prompt : String
  enabled : Bool
deriving Repr, DecidableEq

/-- An `api_keys` document; `scope` and `app_name` may be absent on
legacy keys. -/
structure ApiKeyDoc where
  key : DocKey
  client_id : Option String
  api_key : String
  scope : Option String
  app_name : Option String
  status : Option String
deriving Repr, DecidableEq

/-- An `applications` document (legacy collection, read by `api_submit`
only for its optional per-app `prompt`). -/
structure ApplicationDoc where
  key : DocKey
  client_id : String
  app_name : String
  prompt : Option String
deriving Repr, DecidableEq

/-- A `call_requests` document (the unified CallRequest record).
Optional fields model keys that may be absent on a given document. -/
structure CallReq where
  key : DocKey
  client_id : Option String
  app_name : Option String
  name : Option String
  user_name : Option String
  phone : Option String
  time : Option String
  data : List (String × String)
  ai_reply : Option String
  query : Option String
  status : Option String
  call_time : Option PyDateTime
  call_initiated : Option Bool
  call_initiated_at : Option PyDateTime
  call_error : Option String
  twilio_sid : Option String
  created_at : Option PyDateTime
  createdAt : Option PyDateTime
  time_str : Option String
deriving Repr, DecidableEq

/-- A default (all-absent) `call_requests` document, for building
concrete documents field by field. -/
def emptyCallReq (k : DocKey) : CallReq :=
  { key := k, client_id := none, app_name := none, name := none,
    user_name := none, phone := none, time := none, data := [],
    ai_reply := none, query := none, status := none, call_time := none,
    call_initiated := none, call_initiated_at := none, call_error := none,
    twilio_sid := none, created_at := none, createdAt := none,
    time_str := none }

/-- The shared document store (`db`), one list per collection,
in insertion order. -/
structure Store where
  clients : List ClientDoc
  client_apps : List ClientAppDoc
  form_builders : List FormBuilderDoc
  call_requests : List CallReq
  llm_settings : List LlmSettingsDoc
  api_keys : List ApiKeyDoc
  applications : List ApplicationDoc
deriving Repr, DecidableEq

/-- An empty store. -/
def emptyStore : Store :=
  { clients := [], client_apps := [], form_builders := [], call_requests := [],
    llm_settings := [], api_keys := [], applications := [] }

/-- The ambient execution environment of a handler: external-service
configuration and outcomes, the current time, and the identifiers/keys
freshly generated during the request. -/
structure Env where
  twilioConfigured : Bool
  callCreateOk : String → Bool
  now : PyDateTime
  utcnow : PyDateTime
  sid : String
  openaiKeyPresent : Bool
  aiResult : Option String
  newId : String
  newAppId : String
  newFormId : String
  genApiKey : String

/-- Observable outbound side effects of a handler: Twilio SMS sends and
voice-call placements. -/
inductive Effect where
  | smsStatus (toPhone : String) (status : String)
  | notifyClient (toPhone : String)
  | callAttempt (booking_id : String) (toPhone : String)
deriving Repr, DecidableEq

/-- HTTP-level responses the handlers return. -/
inductive Resp where
  | redirect (loc : String)
  | htmlPage (template : String)
  | textResp (body : String) (code : Nat)
deriving Repr, DecidableEq

/-- `update_one`: apply `f` to the first element satisfying `p`. -/
def updateFirst {α : Type} (p : α → Bool) (f : α → α) : List α → List α
  | [] => []
  | x :: xs => if p x then f x :: xs else x :: updateFirst p f xs

/-! ### Twilio call placement and the scheduled-call poller -/

/-- The phone standardization in `trigger_voice_call`. -/
def targetPhoneForCall (phone : String) : String :=
  let clean := digitsOf phone
  if clean.data.length == 10 then "+91" ++ clean
  else if !pyStartsWith phone "+" then "+" ++ clean
  else phone

/-- The `$set` applied by `trigger_voice_call` after a successful
`calls.create`. -/
def setInitiated (env : Env) (r : CallReq) : CallReq :=
  { r with call_initiated := some true, call_initiated_at := some env.now,
           twilio_sid := some env.sid }

/-- The update targeting of `trigger_voice_call`: try
`{"_id": ObjectId(booking_id)}` and fall back to the plain string id when
construction fails or nothing matched. -/
def updateByProbedId (bid : String) (f : CallReq → CallReq)
    (l : List CallReq) : List CallReq :=
  if isValidOid bid && l.any (fun r => r.key == DocKey.oid bid) then
    updateFirst (fun r => r.key == DocKey.oid bid) f l
  else
    updateFirst (fun r => r.key == DocKey.strId bid) f l

/-- `trigger_voice_call(booking_id, phone, app_name)`: returns the
updated store, the outbound-call effects, and the function's boolean
result. -/
def trigger_voice_call (env : Env) (booking_id phone : String)
    (s : Store) : Store × List Effect × Bool :=
  if !env.twilioConfigured then (s, [], false)
  else
    let target := targetPhoneForCall phone
    if env.callCreateOk booking_id then
      ({ s with call_requests := updateByProbedId booking_id (setInitiated env) s.call_requests },
       [Effect.callAttempt booking_id target], true)
    else
      (s, [Effect.callAttempt booking_id target], false)

/-- The poller's query predicate: `status = "APPROVED"`,
`call_time <= now` (documents without a `call_time` never match `$lte`),
and `call_initiated != true` (`$ne` also matches absent fields). -/
def pollerMatches (now : PyDateTime) (r : CallReq) : Bool :=
  r.status == some "APPROVED"
    && (match r.call_time with
        | some t => t.ble now
        | none => false)
    && !(r.call_initiated == some true)

/-- One iteration of the poller's loop body for a matched document. -/
def pollerStep (env : Env) (acc : Store × List Effect) (call : CallReq) :
    Store × List Effect :=
  let call_id := call.key.asStr
  let phone := pyStr call.phone
  let (st', fx', ok) := trigger_voice_call env call_id phone acc.1
  if ok then (st', acc.2 ++ fx')
  else
    ({ st' with
        call_requests := updateFirst (fun r => r.key == call.key)
          (fun r => { r with call_error := some "Failed to trigger scheduled call" })
          st'.call_requests },
     acc.2 ++ fx')

/-- `check_scheduled_calls`: one tick of the background job. -/
def check_scheduled_calls (env : Env) (s : Store) : Store × List Effect :=
  let pending := s.call_requests.filter (pollerMatches env.now)
  pending.foldl (pollerStep env) (s, [])

/-! ### SMS helpers and the approval / rejection handlers -/

/-- `send_status_sms(phone, status, app_name, user_name)`: the emitted
SMS effect (none when Twilio is unconfigured or the phone is falsy). -/
def send_status_sms (env : Env) (phone : Option String) (status : String) :
    List Effect :=
  if !env.twilioConfigured || !pyTruthy phone then []
  else
    let p := pyStr phone
    let clean := digitsOf p
    let target :=
      if clean.data.length == 10 then "+91" ++ clean
      else if pyStartsWith clean "91" && clean.data.length == 12 then "+" ++ clean
      else if !pyStartsWith p "+" then "+" ++ clean
      else p
    [Effect.smsStatus target status]

/-- `notify_client_sms(client_id, ...)`: looks the client up by email,
then string `_id`, then `ObjectId`, and texts its `phone` or `number`. -/
def notify_client_sms (env : Env) (s : Store) (client_id : String) :
    List Effect :=
  if !env.twilioConfigured then []
  else
    let c0 := s.clients.find? (fun c => c.email == client_id)
    let c1 := match c0 with
      | some c => some c
      | none => s.clients.find? (fun c => c.key == DocKey.strId client_id)
    let c2 := match c1 with
      | some c => some c
      | none =>
          if client_id.data.length == 24 && isValidOid client_id then
            s.clients.find? (fun c => c.key == DocKey.oid client_id)
          else none
    match c2 with
    | none => []
    | some c =>
        let client_phone :=
          if !c.phone.data.isEmpty then some c.phone
          else if !c.number.data.isEmpty then some c.number
          else none
        match client_phone with
        | none => []
        | some cp =>
            let clean := digitsOf cp
            let target :=
              if clean.data.length == 10 then "+91" ++ clean
              else if !pyStartsWith cp "+" then "+" ++ clean
              else cp
            [Effect.notifyClient target]

/-- The booking lookup shared by `approve_booking` and `reject_booking`:
`ObjectId` form when the id parses, else the plain string form. -/
def lookupBooking (id : String) (s : Store) : Option CallReq :=
  if isValidOid id then
    s.call_requests.find? (fun r => r.key == DocKey.oid id)
  else
    s.call_requests.find? (fun r => r.key == DocKey.strId id)

/-- `approve_booking(id)`: sets `status = "APPROVED"`, sends the status
SMS, and places an immediate call unless a future `call_time` exists or
the booking has no phone. -/
def approve_booking (env : Env) (id : String) (s : Store) :
    Store × List Effect × Resp :=
  match lookupBooking id s with
  | none => (s, [], Resp.redirect "booking_data")
  | some b =>
      let s1 := { s with
        call_requests := updateFirst (fun r => r.key == b.key)
          (fun r => { r with status := some "APPROVED" }) s.call_requests }
      let fxSms := send_status_sms env b.phone "APPROVED"
      let scheduledLater :=
        match b.call_time with
        | some t => env.now.blt t
        | none => false
      if scheduledLater then
        (s1, fxSms, Resp.redirect "booking_data")
      else if pyTruthy b.phone then
        let (s2, fxCall, _ok) :=
          trigger_voice_call env b.key.asStr (pyStr b.phone) s1
        (s2, fxSms ++ fxCall, Resp.redirect "booking_data")
      else
        (s1, fxSms, Resp.redirect "booking_data")

/-- `reject_booking(id)`: sets `status = "REJECTED"` and sends the
status SMS; never places a call. -/
def reject_booking (env : Env) (id : String) (s : Store) :
    Store × List Effect × Resp :=
  match lookupBooking id s with
  | none => (s, [], Resp.redirect "booking_data")
  | some b =>
      let s1 := { s with
        call_requests := updateFirst (fun r => r.key == b.key)
          (fun r => { r with status := some "REJECTED" }) s.call_requests }
      let fxSms := send_status_sms env b.phone "REJECTED"
      (s1, fxSms, Resp.redirect "booking_data")

/-! ### `api_submit`: the JSON/form intake endpoint -/

/-- Python dict read `data.get(k)` on a submitted string map (after
`dict(request.form)` / `request.json`). -/
def dictGet (data : List (String × String)) (k : String) : Option String :=
  (data.find? (fun kv => kv.1 == k)).map (fun kv => kv.2)

/-- The label / field-name pairs detected by the field-scanning loop of
`api_submit`, all initialized to `""`. -/
structure Detect where
  name_label : String := ""
  name_field_name : String := ""
  phone_label : String := ""
  phone_field_name : String := ""
  time_label : String := ""
  time_field_name : String := ""
deriving Repr, DecidableEq

/-- One iteration of the field-scanning loop (later fields overwrite
earlier matches). -/
def detectStep (acc : Detect) (field : FormField) : Detect :=
  let label_text := lowerStr field.label
  let field_name := lowerStr field.name
  let acc :=
    if containsSub label_text "phone" || containsSub field_name "phone"
        || containsSub label_text "mobile" || containsSub label_text "number" then
      { acc with phone_label := field.label, phone_field_name := field.name }
    else acc
  let acc :=
    if containsSub label_text "name" || containsSub field_name "name" then
      { acc with name_label := field.label, name_field_name := field.name }
    else acc
  if containsSub label_text "time" || containsSub field_name "time"
      || containsSub label_text "slot" || containsSub label_text "booking" then
    { acc with time_label := field.label, time_field_name := field.name }
  else acc

/-- The field-scanning loop of `api_submit` over the form's `fields`. -/
def detect_fields (fields : List FormField) : Detect :=
  fields.foldl detectStep {}

/-- First stage of name extraction: by detected label, else by detected
field name. -/
def extract_user_name (det : Detect) (data : List (String × String)) :
    Option String :=
  if !det.name_label.data.isEmpty && (dictGet data det.name_label).isSome then
    dictGet data det.name_label
  else if !det.name_field_name.data.isEmpty && (dictGet data det.name_field_name).isSome then
    dictGet data det.name_field_name
  else none

/-- First stage of phone extraction, mirroring `extract_user_name`. -/
def extract_phone_raw (det : Detect) (data : List (String × String)) :
    Option String :=
  if !det.phone_label.data.isEmpty && (dictGet data det.phone_label).isSome then
    dictGet data det.phone_label
  else if !det.phone_field_name.data.isEmpty && (dictGet data det.phone_field_name).isSome then
    dictGet data det.phone_field_name
  else none

/-- First stage of time extraction (defaults to `""`). -/
def extract_time_raw (det : Detect) (data : List (String × String)) : String :=
  if !det.time_label.data.isEmpty && (dictGet data det.time_label).isSome then
    (dictGet data det.time_label).getD ""
  else if !det.time_field_name.data.isEmpty && (dictGet data det.time_field_name).isSome then
    (dictGet data det.time_field_name).getD ""
  else ""

/-- `for key in [...]: if key in data: x = data[key]; break`. -/
def firstKeyHit (data : List (String × String)) : List String → Option String
  | [] => none
  | k :: ks =>
      match dictGet data k with
      | some v => some v
      | none => firstKeyHit data ks

/-- The hard-coded fallback keys tried for the user's name. -/
def nameFallbackKeys : List String :=
  ["name", "Name", "full_name", "Full Name", "fullname", "user_name", "username"]

/-- The hard-coded fallback keys tried for the phone number. -/
def phoneFallbackKeys : List String :=
  ["phone", "Phone", "phone_number", "Phone Number", "mobile", "Mobile", "phone number"]

/-- Name after the common-key fallback (`if not user_name: ...`). -/
def resolved_user_name (det : Detect) (data : List (String × String)) :
    Option String :=
  let u := extract_user_name det data
  if !pyTruthy u then
    match firstKeyHit data nameFallbackKeys with
    | some v => some v
    | none => u
  else u

/-- Phone after the common-key fallback. -/
def resolved_phone (det : Detect) (data : List (String × String)) :
    Option String :=
  let p := extract_phone_raw det data
  if !pyTruthy p then
    match firstKeyHit data phoneFallbackKeys with
    | some v => some v
    | none => p
  else p

/-- The buggy double loop falling back over substrings of submitted
keys for the display time (each listed key that hits any submitted key
overwrites the previous value). -/
def time_fallback (et : String) (data : List (String × String)) : String :=
  if et.data.isEmpty then
    ["time", "booking", "slot", "booking time", "preferred time"].foldl
      (fun acc key =>
        match data.find? (fun kv => containsSub (lowerStr kv.1) key) with
        | some kv => kv.2
        | none => acc)
      et
  else et

/-- `preferred_call_time` parsing: `fromisoformat`, then
`strptime("%Y-%m-%d %H:%M")`, else no scheduled time. -/
def parse_pref_call_time (data : List (String × String)) : Option PyDateTime :=
  match dictGet data "preferred_call_time" with
  | some v =>
      if !v.data.isEmpty then
        match pyFromIsoformat v with
        | some t => some t
        | none => strptimeSpace v
      else none
  | none => none

/-- A raised Python exception reaching the global error handler. -/
inductive PyError where
  | runtimeError
  | valueError
deriving Repr, DecidableEq

/-- The hard-coded year fix-up: a parsed year below 2000 becomes 2026
when it is exactly 26, and the current year otherwise.  The
`datetime.replace` calls sit in no `try`/`except`, so a `ValueError`
(a day that does not exist in the target year) propagates to the global
500 handler. -/
def fix_year (nowYear : Int) : Option PyDateTime → Except PyError (Option PyDateTime)
  | some t =>
      if t.year < 2000 then
        if t.year == 26 then
          match t.replaceYear 2026 with
          | some t' => Except.ok (some t')
          | none => Except.error PyError.valueError
        else
          match t.replaceYear nowYear with
          | some t' => Except.ok (some t')
          | none => Except.error PyError.valueError
      else Except.ok (some t)
  | none => Except.ok none

/-- Phone cleanup and validation: a truthy phone is stripped of
spaces/dashes/parentheses and discarded when shorter than 10 characters
or digit-free. -/
def clean_validate_phone (p : Option String) : Option String :=
  if pyTruthy p then
    let c := cleanPhone (pyStr p)
    if c.data.length < 10 || !hasDigit c then none else some c
  else p

/-- System-prompt resolution: the legacy `applications` prompt when
truthy, else the `llm_settings` prompts, else a static default. -/
def resolve_prompt (s : Store) (client_id app_name : String) : String :=
  let fb :=
    match s.llm_settings.find? (fun l => l.client_id == client_id && l.app_name == app_name) with
    | some st => st.default_prompt ++ "\n" ++ st.custom_prompt
    | none => "You are a helpful assistant."
  match s.applications.find? (fun a => a.app_name == app_name) with
  | some a => if pyTruthy a.prompt then pyStr a.prompt else fb
  | none => fb

/-- The acknowledgment string: the completion result when an API key is
configured and the call succeeds, else the static fallbacks. -/
def ai_reply_of (env : Env) : String :=
  if env.openaiKeyPresent then
    match env.aiResult with
    | some r => r
    | none => "Form received successfully (AI processing unavailable)"
  else "Form received successfully"

/-- Zero-padded two-digit rendering for `strftime("%H:%M")`. -/
def two (n : Int) : String :=
  (if n < 10 then "0" else "") ++ toString n

/-- `datetime.strftime("%H:%M")`. -/
def fmtHM (t : PyDateTime) : String :=
  two (t.mins / 60) ++ ":" ++ two (t.mins % 60)

/-- The response of `POST /api/submit/<api_key>`. -/
inductive ApiSubmitResult where
  | invalidKey
  | ok (status message call_id user_name phone : String) (call_initiated : Bool)
deriving Repr, DecidableEq

/-- `api_submit(api_key)`: resolves the form by API key, heuristically
extracts name/phone/time, parses and fixes the scheduled call time,
inserts the normalized CallRequest, notifies the client by SMS and
reports success; no voice call is placed on submission.  The year
fix-up is the one step outside every `try`/`except`: a `ValueError`
there aborts the request (global 500 handler) before anything is
stored. -/
def api_submit (env : Env) (api_key : String) (data : List (String × String))
    (s : Store) : Except PyError (Store × List Effect × ApiSubmitResult) :=
  match s.form_builders.find? (fun f => f.api_key == api_key) with
  | none => Except.ok (s, [], ApiSubmitResult.invalidKey)
  | some form =>
      let client_id := form.client_id
      let app_name := form.app_name
      let det := detect_fields form.fields
      let user_name := resolved_user_name det data
      match fix_year env.now.year (parse_pref_call_time data) with
      | Except.error e => Except.error e
      | Except.ok call_time =>
      let phone_num := clean_validate_phone (resolved_phone det data)
      let extracted_time := time_fallback (extract_time_raw det data) data
      let display_name := if pyTruthy user_name then pyStr user_name else "Unknown User"
      let display_phone := if pyTruthy phone_num then pyStr phone_num else "No Phone Provided"
      let _final_prompt := resolve_prompt s client_id app_name
      let ai_reply := ai_reply_of env
      let newDoc : CallReq :=
        { emptyCallReq (DocKey.oid env.newId) with
          client_id := some client_id,
          app_name := some app_name,
          name := some display_name,
          phone := some display_phone,
          time := some extracted_time,
          data := data,
          ai_reply := some ai_reply,
          query := some (if !ai_reply.data.isEmpty then strTake ai_reply 100 else ""),
          status := some "PENDING",
          call_time := call_time,
          time_str := some (fmtHM env.now),
          created_at := some env.now,
          createdAt := some env.now }
      let s' := { s with call_requests := s.call_requests ++ [newDoc] }
      let fx := notify_client_sms env s' client_id
      Except.ok (s', fx,
        ApiSubmitResult.ok "success" ai_reply env.newId display_name display_phone false)

/-! ### `submit_form`: the legacy HTML intake endpoint

`submit_form` iterates `data.items()` while assigning new keys
(`data["name"] = v`, `data["time"] = v`, `data["call_time"] = ...`) into
the same dict.  CPython's dict iterator records the dict's size when
iteration starts and raises `RuntimeError` from the next `__next__` call
after the size has changed, so the model checks the size after every
loop body (including the last, whose change is detected by the
terminating `__next__`). -/

/-- A Python dict value as stored by `submit_form`. -/
inductive PyVal where
  | vs (v : String)
  | vdt (v : PyDateTime)
  | vnone
deriving Repr, DecidableEq

/-- Truthiness of a Python value. -/
def pyValTruthy : PyVal → Bool
  | .vs v => !v.data.isEmpty
  | .vdt _ => true
  | .vnone => false

/-- Truthiness of `data.get(k)`. -/
def pyValTruthyO : Option PyVal → Bool
  | none => false
  | some v => pyValTruthy v

/-- Dict read over a heterogeneous dict. -/
def dictGetV (d : List (String × PyVal)) (k : String) : Option PyVal :=
  (d.find? (fun kv => kv.1 == k)).map (fun kv => kv.2)

/-- Dict write `d[k] = v`: in-place update when the key exists (the size
is unchanged), append otherwise (the size grows). -/
def dictSetV (d : List (String × PyVal)) (k : String) (v : PyVal) :
    List (String × PyVal) :=
  if (d.find? (fun kv => kv.1 == k)).isSome then
    d.map (fun kv => if kv.1 == k then (kv.1, v) else kv)
  else d ++ [(k, v)]

/-- The loop-carried state of `submit_form`'s extraction loop. -/
structure SFState where
  data : List (String × PyVal)
  extracted_name : PyVal
  extracted_phone : PyVal
  extracted_time : PyVal
  call_time : Option PyDateTime
deriving Repr, DecidableEq

/-- One body of `submit_form`'s `for k, v in data.items()` loop. -/
def sf_body (st : SFState) (k : String) (v : PyVal) : SFState :=
  let low_k := lowerStr k
  let st :=
    if !pyValTruthyO (dictGetV st.data "name") && containsSub low_k "name" then
      { st with extracted_name := v, data := dictSetV st.data "name" v }
    else st
  let st :=
    if !pyValTruthyO (dictGetV st.data "phone")
        && (containsSub low_k "phone" || containsSub low_k "mobile"
            || containsSub low_k "contact") then
      { st with extracted_phone := v, data := dictSetV st.data "phone" v }
    else st
  let st :=
    if !pyValTruthyO (dictGetV st.data "time")
        && (containsSub low_k "time" || containsSub low_k "booking"
            || containsSub low_k "slot") then
      { st with extracted_time := v, data := dictSetV st.data "time" v }
    else st
  if containsSub low_k "preferred_call_time" && pyValTruthy v then
    match v with
    | .vs str =>
        match strptimeTLocal str with
        | some t =>
            { st with call_time := some t,
                      data := dictSetV st.data "call_time" (PyVal.vdt t) }
        | none => st
    | _ => st
  else st

/-- The extraction loop with CPython's changed-size check after each
body. -/
def sf_loop (n : Nat) : List (String × PyVal) → SFState →
    Except PyError SFState
  | [], st =>
      if st.data.length == n then Except.ok st else Except.error PyError.runtimeError
  | (k, v) :: rest, st =>
      let st' := sf_body st k v
      if st'.data.length == n then sf_loop n rest st'
      else Except.error PyError.runtimeError

/-- Read a string value out of a dict slot. -/
def asStrOpt : Option PyVal → Option String
  | some (.vs v) => some v
  | _ => none

/-- Read a datetime value out of a dict slot. -/
def asDtOpt : Option PyVal → Option PyDateTime
  | some (.vdt t) => some t
  | _ => none

/-- The CallRequest document inserted by `submit_form` (the raw dict,
with the well-known keys in their unified fields). -/
def dictToCallReq (k : DocKey) (d : List (String × PyVal)) : CallReq :=
  { emptyCallReq k with
    name := asStrOpt (dictGetV d "name"),
    phone := asStrOpt (dictGetV d "phone"),
    time := asStrOpt (dictGetV d "time"),
    app_name := asStrOpt (dictGetV d "app_name"),
    client_id := asStrOpt (dictGetV d "client_id"),
    status := asStrOpt (dictGetV d "status"),
    call_time := asDtOpt (dictGetV d "call_time"),
    created_at := asDtOpt (dictGetV d "created_at"),
    data := d.filterMap (fun kv =>
      match kv.2 with
      | .vs v => some (kv.1, v)
      | _ => none) }

/-- `submit_form(app_name)`: standardizes the submitted dict, runs the
extraction loop (which can raise `RuntimeError`, reaching the global
500 handler before anything is stored), applies the year fix-up only to
the local variable — the already-stored `data["call_time"]` keeps the
unfixed value — and inserts the dict as a CallRequest. -/
def submit_form (env : Env) (app_name : String)
    (payload : List (String × String)) (sessionClient : Option String)
    (s : Store) : Except PyError (Store × List Effect × Resp) :=
  let form_config := s.form_builders.find? (fun f => f.app_name == app_name)
  let client_id : Option String :=
    match form_config with
    | some f => some f.client_id
    | none => sessionClient
  let d0 := payload.map (fun kv => (kv.1, PyVal.vs kv.2))
  let d1 := dictSetV d0 "app_name" (PyVal.vs app_name)
  let d2 := dictSetV d1 "client_id"
    (match client_id with
     | some c => PyVal.vs c
     | none => PyVal.vnone)
  let d3 := dictSetV d2 "status" (PyVal.vs "PENDING")
  let d4 := dictSetV d3 "created_at" (PyVal.vdt env.now)
  let st0 : SFState :=
    { data := d4, extracted_name := PyVal.vs "Unknown",
      extracted_phone := PyVal.vs "N/A", extracted_time := PyVal.vs "",
      call_time := none }
  match sf_loop d4.length d4 st0 with
  | Except.error e => Except.error e
  | Except.ok st =>
      match fix_year env.now.year st.call_time with
      | Except.error e => Except.error e
      | Except.ok _fixed_call_time =>
      let newDoc := dictToCallReq (DocKey.oid env.newId) st.data
      let s' := { s with call_requests := s.call_requests ++ [newDoc] }
      let fx :=
        match client_id with
        | some c => if !c.data.isEmpty then notify_client_sms env s' c else []
        | none => []
      Except.ok (s', fx, Resp.htmlPage "success.html")

/-! ### Admin client deletion and application creation -/

/-- `delete_one`: remove the first element satisfying `p`. -/
def removeFirstMatch {α : Type} (p : α → Bool) : List α → List α
  | [] => []
  | x :: xs => if p x then xs else x :: removeFirstMatch p xs

/-- `GET /admin/delete-client/<client_id>`: deletes the client record
and all `client_apps`, `form_builders` and `call_requests` carrying the
client id; `llm_settings` is not touched.  An invalid `ObjectId` string
raises inside the `try` and nothing is deleted. -/
def delete_client (client_id : String) (s : Store) : Store × Resp :=
  if isValidOid client_id then
    ({ s with
       clients := removeFirstMatch (fun c => c.key == DocKey.oid client_id) s.clients,
       client_apps := s.client_apps.filter (fun a => !(a.client_id == client_id)),
       form_builders := s.form_builders.filter (fun f => !(f.client_id == client_id)),
       call_requests := s.call_requests.filter (fun r => !(r.client_id == some client_id)) },
     Resp.redirect "/manage-clients")
  else
    (s, Resp.redirect "/manage-clients")

/-- The default schema installed on every newly created application. -/
def DEFAULT_FORM_FIELDS : List FormField :=
  [⟨"Full Name", "name"⟩, ⟨"Phone Number", "phone"⟩,
   ⟨"Email Address", "email"⟩, ⟨"Address / Location", "address"⟩,
   ⟨"Preferred Date", "date"⟩, ⟨"Service Details", "query"⟩]

/-- `\w` characters that survive `slugify` (underscores are replaced). -/
def isSlugChar (c : Char) : Bool :=
  c.isAlphanum

/-- Replace each maximal run of non-slug characters by a single dash
(`re.sub(r"[\W_]+", "-", ...)`). -/
def collapseRuns : List Char → Bool → List Char
  | [], _ => []
  | c :: rest, prevSep =>
      if isSlugChar c then c :: collapseRuns rest false
      else if prevSep then collapseRuns rest true
      else '-' :: collapseRuns rest true

/-- `slugify(text)`: lowercase, dash-collapse, and `strip("-")`. -/
def slugify (t : String) : String :=
  let collapsed := collapseRuns (lowerStr t).data false
  ⟨((collapsed.dropWhile (fun c => c == '-')).reverse.dropWhile (fun c => c == '-')).reverse⟩

/-- The JSON body returned by `create_application`. -/
inductive CreateAppResult where
  | errMsg (msg : String)
  | created (app_id : String)
deriving Repr, DecidableEq

/-- `POST /client/create_application`: rejects a missing or duplicate
app name with a JSON error (HTTP 200, Flask's `jsonify` default),
otherwise inserts the Application and its default FormBuilder. -/
def create_application (env : Env) (client_id : String)
    (app_name : Option String) (s : Store) : Store × CreateAppResult × Nat :=
  if !pyTruthy app_name then (s, CreateAppResult.errMsg "App name required", 200)
  else
    let an := pyStr app_name
    match s.client_apps.find? (fun a => a.client_id == client_id && a.app_name == an) with
    | some _ => (s, CreateAppResult.errMsg "App already exists", 200)
    | none =>
        let slug := slugify an
        let appDoc : ClientAppDoc :=
          { key := DocKey.oid env.newAppId, client_id := client_id,
            app_name := an, slug := slug, created_at := env.utcnow,
            submissions := 0 }
        let formDoc : FormBuilderDoc :=
          { key := DocKey.oid env.newFormId, client_id := client_id,
            app_id := env.newAppId, app_name := an, slug := slug,
            fields := DEFAULT_FORM_FIELDS, api_key := env.genApiKey,
            created_at := env.now }
        ({ s with
           client_apps := s.client_apps ++ [appDoc],
           form_builders := s.form_builders ++ [formDoc] },
         CreateAppResult.created env.newAppId, 200)

/-! ### `GET /api/calls` -/

/-- The response of `GET /api/calls`. -/
inductive ApiCallsResult where
  | err (msg : String) (code : Nat)
  | ok (client_id : Option String) (total_calls : Nat) (data : List CallReq)
deriving Repr, DecidableEq

/-- Descending `created_at` comparison; documents without the field sort
last, matching Mongo's missing-lowest order under a descending sort. -/
def createdGe (a b : CallReq) : Bool :=
  match a.created_at, b.created_at with
  | some x, some y => y.ble x
  | some _, none => true
  | none, some _ => false
  | none, none => true

/-- Insertion step of the descending `created_at` sort. -/
def insertByCreatedDesc (x : CallReq) : List CallReq → List CallReq
  | [] => [x]
  | y :: ys => if createdGe x y then x :: y :: ys else y :: insertByCreatedDesc x ys

/-- `.sort("created_at", -1)`. -/
def sortByCreatedDesc (l : List CallReq) : List CallReq :=
  l.foldr insertByCreatedDesc []

/-- `GET /api/calls`: 401 without a truthy `x-api-key` header or with an
unknown key; otherwise the caller's CallRequests, restricted to the
bound app when the key's scope is `SINGLE_APP` with a truthy
`app_name`. -/
def api_calls (s : Store) (keyHeader : Option String) : ApiCallsResult :=
  if !pyTruthy keyHeader then ApiCallsResult.err "API key required" 401
  else
    match s.api_keys.find? (fun a => a.api_key == pyStr keyHeader) with
    | none => ApiCallsResult.err "Invalid API key" 401
    | some api =>
        let scope := api.scope.getD "ALL_APPS"
        let scoped_app := api.app_name
        let q : CallReq → Bool := fun r =>
          r.client_id == api.client_id
            && (if scope == "SINGLE_APP" && pyTruthy scoped_app then
                  r.app_name == scoped_app
                else true)
        let calls := sortByCreatedDesc (s.call_requests.filter q)
        ApiCallsResult.ok api.client_id calls.length calls

/-! ### Dashboard 7-day trends -/

/-- `$gte` match on `created_at` (documents without the field never
match). -/
def matchGteCreated (w : PyDateTime) (r : CallReq) : Bool :=
  match r.created_at with
  | some t => w.ble t
  | none => false

/-- The `%Y-%m-%d` bucket keys (day indices) of a document list. -/
def dayKeys (docs : List CallReq) : List Int :=
  docs.filterMap (fun r => r.created_at.map (fun t => t.days))

/-- Insertion step of the ascending bucket sort (`$sort` on the date
string). -/
def insertDayAsc (x : Int × Nat) : List (Int × Nat) → List (Int × Nat)
  | [] => [x]
  | y :: ys => if x.1 ≤ y.1 then x :: y :: ys else y :: insertDayAsc x ys

/-- Sort day buckets ascending by date. -/
def sortByDayAsc (l : List (Int × Nat)) : List (Int × Nat) :=
  l.foldr insertDayAsc []

/-- The `$group`-by-`$dateToString` pipeline stage: one `(day, count)`
bucket per day that occurs, sorted by day. -/
def groupCountsByDay (docs : List CallReq) : List (Int × Nat) :=
  let ks := dayKeys docs
  sortByDayAsc (ks.dedup.map (fun k => (k, ks.count k)))

/-- `next((x["count"] for x in trend_raw if x["_id"] == d), 0)`. -/
def lookupCount (raw : List (Int × Nat)) (d : Int) : Nat :=
  ((raw.find? (fun p => p.1 == d)).map (fun p => p.2)).getD 0

/-- The client `analytics` 7-day trend: aggregate the client's requests
of the last 7 days by day, then emit one zero-filled bucket for each of
the last 7 calendar days. -/
def analytics_trend (env : Env) (client_id : String) (s : Store) :
    List (Int × Nat) :=
  let seven := env.utcnow.subDays 7
  let raw := groupCountsByDay
    (s.call_requests.filter (fun r => r.client_id == some client_id && matchGteCreated seven r))
  (List.range 7).map (fun i =>
    let d := env.utcnow.days - (6 - Int.ofNat i)
    (d, lookupCount raw d))

/-- The raw 7-day pipeline shared by `super_dashboard` (`trend_data`)
and `system_analytics` (`calls_per_day`): buckets only for days that
have at least one submission, with no zero-filling. -/
def admin_calls_per_day (env : Env) (s : Store) : List (Int × Nat) :=
  groupCountsByDay (s.call_requests.filter (matchGteCreated (env.utcnow.subDays 7)))

/-! ### Shared concrete fixtures for the witnesses and counterexamples -/

/-- A concrete environment: Twilio configured, all calls succeed, no
completion key, the clock at 2025-10-12. -/
def exEnv : Env :=
  { twilioConfigured := true, callCreateOk := fun _ => true,
    now := ⟨daysFromCivil 2025 10 12, 540⟩,
    utcnow := ⟨daysFromCivil 2025 10 12, 300⟩,
    sid := "SID1", openaiKeyPresent := false, aiResult := none,
    newId := "b1b1b1b1b1b1b1b1b1b1b1b1",
    newAppId := "c2c2c2c2c2c2c2c2c2c2c2c2",
    newFormId := "d3d3d3d3d3d3d3d3d3d3d3d3", genApiKey := "GK1" }

/-- A 24-hex client id used across the concrete stores. -/
def exCid : String := "aaaaaaaaaaaaaaaaaaaaaaaa"

/-- A concrete client owning the fixture documents. -/
def exClient : ClientDoc :=
  { key := DocKey.oid exCid, company_name := "Acme", email := "a@acme.example",
    password := "pw", role := "CLIENT", name := "A", number := "9876543210",
    phone := "9876543210" }

/-- A concrete application of `exClient`. -/
def exApp : ClientAppDoc :=
  { key := DocKey.oid "e4e4e4e4e4e4e4e4e4e4e4e4", client_id := exCid,
    app_name := "Hotel", slug := "hotel", created_at := ⟨0, 0⟩,
    submissions := 0 }

/-- A concrete FormBuilder of `exClient` with the default-style labels. -/
def exForm : FormBuilderDoc :=
  { key := DocKey.oid "f5f5f5f5f5f5f5f5f5f5f5f5", client_id := exCid,
    app_id := "e4e4e4e4e4e4e4e4e4e4e4e4", app_name := "Hotel", slug := "hotel",
    fields := [⟨"Full Name", "full_name"⟩, ⟨"Phone Number", "phone_number"⟩],
    api_key := "K1", created_at := ⟨0, 0⟩ }

/-- A concrete LlmSettings document of `exClient`. -/
def exLlm : LlmSettingsDoc :=
  { client_id := exCid, app_name := "Hotel", default_prompt := "dp",
    custom_prompt := "cp", enabled := true }

/-- A concrete pending CallRequest of `exClient`. -/
def exCall : CallReq :=
  { emptyCallReq (DocKey.oid "a6a6a6a6a6a6a6a6a6a6a6a6") with
    client_id := some exCid, app_name := some "Hotel",
    name := some "Asha", phone := some "9876543210",
    status := some "PENDING", created_at := some ⟨0, 0⟩ }

/-- The store used by the client-deletion scenarios: one client with one
app, one form, one call request and one LlmSettings document. -/
def sC1 : Store :=
  { emptyStore with
    clients := [exClient], client_apps := [exApp],
    form_builders := [exForm], call_requests := [exCall],
    llm_settings := [exLlm] }

/-! ### Generic list lemmas about the update and sort helpers -/

theorem updateFirst_map {α β : Type} (p : α → Bool) (f : α → α) (g : α → β)
    (hf : ∀ x, g (f x) = g x) (l : List α) :
    (updateFirst p f l).map g = l.map g := by
  induction l with
  | nil => rfl
  | cons x xs ih =>
      by_cases hx : p x
      · simp [updateFirst, hx, hf]
      · simp [updateFirst, hx, ih]

theorem find?_updateFirst_ne {α : Type} (p q : α → Bool) (f : α → α)
    (l : List α) (hpq : ∀ x, p x = true → q x = false)
    (hf : ∀ x, q (f x) = q x) :
    (updateFirst p f l).find? q = l.find? q := by
  induction l with
  | nil => rfl
  | cons x xs ih =>
      by_cases hx : p x
      · have hqx : q x = false := hpq x hx
        have hqfx : q (f x) = false := by rw [hf]; exact hqx
        simp [updateFirst, hx, List.find?, hqx, hqfx]
      · simp only [updateFirst, hx, if_false]
        by_cases hqx : q x
        · simp [List.find?, hqx]
        · simp only [Bool.not_eq_true] at hqx
          simp [List.find?, hqx, ih]

theorem find?_updateFirst_self {α : Type} (p : α → Bool) (f : α → α)
    (l : List α) (hf : ∀ x, p (f x) = p x) :
    (updateFirst p f l).find? p = (l.find? p).map f := by
  induction l with
  | nil => rfl
  | cons x xs ih =>
      by_cases hx : p x
      · have : p (f x) = true := by rw [hf]; exact hx
        simp [updateFirst, hx, List.find?, this]
      · simp only [Bool.not_eq_true] at hx
        simp [updateFirst, hx, List.find?, ih]

theorem find?_map_updateFirst_of_pres {α β : Type} (p : α → Bool)
    (f : α → α) (g : α → β) (K : α → Bool) (l : List α)
    (hk : ∀ x, K (f x) = K x) (hg : ∀ x, g (f x) = g x) :
    ((updateFirst p f l).find? K).map g = (l.find? K).map g := by
  induction l with
  | nil => rfl
  | cons x xs ih =>
      by_cases hx : p x
      · by_cases hkx : K x
        · have : K (f x) = true := by rw [hk]; exact hkx
          simp [updateFirst, hx, List.find?, hkx, this, hg]
        · simp only [Bool.not_eq_true] at hkx
          have : K (f x) = false := by rw [hk]; exact hkx
          simp [updateFirst, hx, List.find?, hkx, this]
      · by_cases hkx : K x
        · simp [updateFirst, hx, List.find?, hkx]
        · simp only [Bool.not_eq_true] at hkx
          simp [updateFirst, hx, List.find?, hkx, ih]

/-! ### C10: approving or rejecting an unknown id is a no-op -/

/-- Claim C10 (confirmed): when no CallRequest exists under either the
`ObjectId` or the string form of an id, `approve_booking` and
`reject_booking` return the redirect, emit no SMS and no call, and
leave the store unchanged. -/
theorem C10_not_found_noop (env : Env) (id : String) (s : Store)
    (h : ∀ r ∈ s.call_requests, r.key ≠ DocKey.oid id ∧ r.key ≠ DocKey.strId id) :
    approve_booking env id s = (s, [], Resp.redirect "booking_data") ∧
    reject_booking env id s = (s, [], Resp.redirect "booking_data") := by
  have hlk : lookupBooking id s = none := by
    unfold lookupBooking
    by_cases hv : isValidOid id
    · simp only [hv, if_true]
      refine List.find?_eq_none.mpr (fun r hr => ?_)
      have := (h r hr).1
      simpa using this
    · simp only [hv, if_false]
      refine List.find?_eq_none.mpr (fun r hr => ?_)
      have := (h r hr).2
      simpa using this
  constructor
  · unfold approve_booking
    rw [hlk]
  · unfold reject_booking
    rw [hlk]

/-- Witness for C10 at a concrete store and id. -/
theorem C10_not_found_noop_witness :
    approve_booking exEnv "ffffffffffffffffffffffff" sC1 =
      (sC1, [], Resp.redirect "booking_data") ∧
    reject_booking exEnv "ffffffffffffffffffffffff" sC1 =
      (sC1, [], Resp.redirect "booking_data") :=
  C10_not_found_noop exEnv "ffffffffffffffffffffffff" sC1 (by decide)

/-! ### C7: duplicate application names -/

/-- Claim C7 (counterexample): the duplicate-name rejection is an HTTP
200 JSON error, not a 4xx response, so the claim's "4xx validation
error" fails on the code. -/
theorem C7_duplicate_returns_200 :
    (create_application exEnv exCid (some "Hotel") sC1).2.2 = 200 ∧
    ¬(400 ≤ (create_application exEnv exCid (some "Hotel") sC1).2.2 ∧
      (create_application exEnv exCid (some "Hotel") sC1).2.2 < 500) := by
  constructor
  · decide
  · decide

/-- Claim C7 (amended): a `create_application` request whose `app_name`
already exists for the client is rejected with a JSON error message and
HTTP status 200, and neither an Application nor a FormBuilder document
is inserted (the store is returned unchanged). -/
theorem C7_duplicate_rejected_no_insert (env : Env) (cid an : String)
    (s : Store) (x : ClientAppDoc)
    (han : pyTruthy (some an) = true)
    (hdup : s.client_apps.find? (fun a => a.client_id == cid && a.app_name == an) = some x) :
    create_application env cid (some an) s =
      (s, CreateAppResult.errMsg "App already exists", 200) := by
  simp [create_application, han, pyStr, hdup]

/-- Witness for C7's amended statement at the concrete store. -/
theorem C7_duplicate_rejected_no_insert_witness :
    create_application exEnv exCid (some "Hotel") sC1 =
      (sC1, CreateAppResult.errMsg "App already exists", 200) :=
  C7_duplicate_rejected_no_insert exEnv exCid "Hotel" sC1 exApp (by decide)
    (by decide)

/-! ### C1: client deletion cascade -/

/-- Claim C1 (counterexample): after `delete_client` on a client that
owns an LlmSettings document, that LlmSettings document still carries
the client id — the handler never touches `llm_settings`. -/
theorem C1_llm_settings_survive_delete :
    ((delete_client exCid sC1).1.llm_settings.filter
      (fun l => l.client_id == exCid)).length = 1 := by
  decide

/-- Claim C1 (amended): for a valid client id, `delete_client` removes
every Application, FormBuilder and CallRequest carrying that client id,
but leaves the `llm_settings` collection untouched. -/
theorem C1_delete_client_cascade (cid : String) (s : Store)
    (h : isValidOid cid = true) :
    (∀ a ∈ (delete_client cid s).1.client_apps, a.client_id ≠ cid) ∧
    (∀ f ∈ (delete_client cid s).1.form_builders, f.client_id ≠ cid) ∧
    (∀ r ∈ (delete_client cid s).1.call_requests, r.client_id ≠ some cid) ∧
    (delete_client cid s).1.llm_settings = s.llm_settings := by
  unfold delete_client
  rw [h]
  refine ⟨fun a ha => ?_, fun f hf => ?_, fun r hr => ?_, rfl⟩
  · have := (List.mem_filter.mp ha).2
    simpa using this
  · have := (List.mem_filter.mp hf).2
    simpa using this
  · have := (List.mem_filter.mp hr).2
    simpa using this

/-- Witness for C1's amended statement at the concrete store. -/
theorem C1_delete_client_cascade_witness :
    (∀ a ∈ (delete_client exCid sC1).1.client_apps, a.client_id ≠ exCid) ∧
    (∀ f ∈ (delete_client exCid sC1).1.form_builders, f.client_id ≠ exCid) ∧
    (∀ r ∈ (delete_client exCid sC1).1.call_requests, r.client_id ≠ some exCid) ∧
    (delete_client exCid sC1).1.llm_settings = sC1.llm_settings :=
  C1_delete_client_cascade exCid sC1 (by decide)

/-! ### C5 / C9: `api_submit` intake behavior -/

/-- Claim C5 (confirmed): submitting
`{"Full Name": "Asha", "Phone Number": "9876543210"}` against a
FormBuilder whose labels are exactly "Full Name"/"Phone Number" stores a
CallRequest with `name = "Asha"`, `phone = "9876543210"` and
`status = "PENDING"`, in any store resolving the API key to that form. -/
theorem C5_submission_stored (env : Env) (s : Store)
    (hf : s.form_builders.find? (fun f => f.api_key == "K1") = some exForm) :
    ∃ s' fx resp,
      api_submit env "K1" [("Full Name", "Asha"), ("Phone Number", "9876543210")] s =
        Except.ok (s', fx, resp) ∧
      (s'.call_requests.getLast?).map (fun r => (r.name, r.phone, r.status)) =
        some (some "Asha", some "9876543210", some "PENDING") := by
  have hfix : fix_year env.now.year
      (parse_pref_call_time [("Full Name", "Asha"), ("Phone Number", "9876543210")]) =
      Except.ok none := rfl
  simp only [api_submit, hf, hfix]
  refine ⟨_, _, _, rfl, ?_⟩
  rw [List.getLast?_concat]
  simp only [Option.map_some', Option.some.injEq, Prod.mk.injEq]
  refine ⟨?_, ?_, ?_⟩ <;> decide

/-- Witness for C5 at the concrete store. -/
theorem C5_submission_stored_witness :
    ∃ s' fx resp,
      api_submit exEnv "K1" [("Full Name", "Asha"), ("Phone Number", "9876543210")] sC1 =
        Except.ok (s', fx, resp) ∧
      (s'.call_requests.getLast?).map (fun r => (r.name, r.phone, r.status)) =
        some (some "Asha", some "9876543210", some "PENDING") :=
  C5_submission_stored exEnv sC1 (by decide)

/-- Whether a handler run raised `RuntimeError`. -/
def isRuntimeErr {α : Type} : Except PyError α → Bool
  | Except.error PyError.runtimeError => true
  | _ => false

/-- The year of the stored `call_time` of the last inserted record, when
the handler run succeeded. -/
def lastStoredCallTimeYear :
    Except PyError (Store × List Effect × ApiSubmitResult) → Option Int
  | Except.ok (s', _, _) =>
      ((s'.call_requests.getLast?).bind (fun r => r.call_time)).map PyDateTime.year
  | Except.error _ => none

/-- Claim C4 (code bug): through `api_submit`, a submitted
`preferred_call_time` of `"0026-05-01T10:00"` is stored with year 2026
and `"0019-05-01T10:00"` with the current year (2025 here); but through
`submit_form` the same submission raises `RuntimeError` — the loop adds
`data["time"]`/`data["call_time"]` while iterating `data.items()` — so
the request dies with a 500 and nothing is stored (and even ignoring the
crash, the year fix is applied only to the local variable, never to the
stored `data["call_time"]`). -/
theorem C4_year_fix_divergence :
    lastStoredCallTimeYear (api_submit exEnv "K1"
      [("preferred_call_time", "0026-05-01T10:00")] sC1) = some 2026 ∧
    lastStoredCallTimeYear (api_submit exEnv "K1"
      [("preferred_call_time", "0019-05-01T10:00")] sC1) = some 2025 ∧
    isRuntimeErr (submit_form exEnv "Hotel"
      [("preferred_call_time", "0026-05-01T10:00")] none sC1) = true := by
  refine ⟨?_, ?_, ?_⟩
  · decide
  · decide
  · decide

/-! ### Effect counting -/

/-- Number of status-SMS sends in an effect trace. -/
def countSms (fx : List Effect) : Nat :=
  fx.countP (fun e =>
    match e with
    | Effect.smsStatus _ _ => true
    | _ => false)

/-- Number of outbound-call placements in an effect trace. -/
def countCalls (fx : List Effect) : Nat :=
  fx.countP (fun e =>
    match e with
    | Effect.callAttempt _ _ => true
    | _ => false)

/-- Number of outbound-call placements for a given booking id. -/
def attemptsFor (bid : String) (fx : List Effect) : Nat :=
  fx.countP (fun e =>
    match e with
    | Effect.callAttempt b _ => b == bid
    | _ => false)

/-! ### C3: the approval handler -/

/-- A concrete PENDING booking without a phone and without a scheduled
time. -/
def exCallNoPhone : CallReq :=
  { emptyCallReq (DocKey.oid "a8a8a8a8a8a8a8a8a8a8a8a8") with
    client_id := some exCid, app_name := some "Hotel",
    name := some "NoPhone", status := some "PENDING" }

/-- The store holding only the phoneless booking. -/
def sC3 : Store :=
  { emptyStore with call_requests := [exCallNoPhone] }

theorem send_status_sms_single (env : Env) (phone : Option String)
    (st : String) (hconf : env.twilioConfigured = true)
    (hph : pyTruthy phone = true) :
    ∃ t, send_status_sms env phone st = [Effect.smsStatus t st] := by
  unfold send_status_sms
  rw [hconf, hph]
  exact ⟨_, rfl⟩

theorem trigger_effects_single (env : Env) (bid ph : String) (s : Store)
    (hconf : env.twilioConfigured = true) :
    ∃ t, (trigger_voice_call env bid ph s).2.1 = [Effect.callAttempt bid t] := by
  unfold trigger_voice_call
  rw [hconf]
  by_cases hok : env.callCreateOk bid = true
  · rw [if_pos hok]
    exact ⟨_, rfl⟩
  · rw [if_neg hok]
    exact ⟨_, rfl⟩

theorem trigger_store_status (env : Env) (bid ph : String) (s : Store)
    (K : DocKey) :
    ((trigger_voice_call env bid ph s).1.call_requests.find?
        (fun r => r.key == K)).map (fun r => r.status) =
      (s.call_requests.find? (fun r => r.key == K)).map (fun r => r.status) := by
  unfold trigger_voice_call
  by_cases hc : env.twilioConfigured = true
  · simp only [hc, Bool.not_true, Bool.false_eq_true, if_false]
    by_cases hok : env.callCreateOk bid = true
    · rw [if_pos hok]
      show ((updateByProbedId bid (setInitiated env) s.call_requests).find? _).map _ = _
      unfold updateByProbedId
      by_cases hb : (isValidOid bid
          && s.call_requests.any (fun r => r.key == DocKey.oid bid)) = true
      · rw [if_pos hb]
        exact find?_map_updateFirst_of_pres _ _ _ _ _ (fun x => rfl) (fun x => rfl)
      · rw [if_neg hb]
        exact find?_map_updateFirst_of_pres _ _ _ _ _ (fun x => rfl) (fun x => rfl)
    · rw [if_neg hok]
  · rw [Bool.not_eq_true] at hc
    simp only [hc, Bool.not_false, if_true]

theorem lookupBooking_find? (id : String) (s : Store) (b : CallReq)
    (hl : lookupBooking id s = some b) :
    s.call_requests.find? (fun r => r.key == b.key) = some b := by
  unfold lookupBooking at hl
  by_cases hv : isValidOid id = true
  · rw [if_pos hv] at hl
    have hb := List.find?_some hl
    have hkey : b.key = DocKey.oid id := by simpa using hb
    rw [hkey]
    exact hl
  · rw [if_neg hv] at hl
    have hb := List.find?_some hl
    have hkey : b.key = DocKey.strId id := by simpa using hb
    rw [hkey]
    exact hl

/-- Claim C3 (counterexample): a PENDING booking without a phone and
without a `call_time` is approved with NO status SMS and NO outbound
call attempt — the handler guards both on the phone — contradicting
"an SMS is sent" and "exactly one outbound call attempt". -/
theorem C3_no_phone_counterexample :
    exCallNoPhone.status = some "PENDING" ∧ exCallNoPhone.call_time = none ∧
    exCallNoPhone.phone = none ∧
    (approve_booking exEnv "a8a8a8a8a8a8a8a8a8a8a8a8" sC3).2.1 = [] ∧
    (((approve_booking exEnv "a8a8a8a8a8a8a8a8a8a8a8a8" sC3).1.call_requests.find?
        (fun r => r.key == exCallNoPhone.key)).map (fun r => r.status) =
      some (some "APPROVED")) := by
  refine ⟨rfl, rfl, rfl, ?_, ?_⟩
  · decide
  · decide

/-- Claim C3 (amended): for an existing PENDING booking that has a phone
(and Twilio configured), `approve_booking` sets the status to APPROVED
and sends exactly one status SMS; an absent or non-future `call_time`
yields exactly one outbound call attempt, a future `call_time` yields
none.  A booking without a phone gets neither the SMS nor the call. -/
theorem C3_approve_booking_spec (env : Env) (id : String) (s : Store)
    (b : CallReq) (hl : lookupBooking id s = some b)
    (_hpend : b.status = some "PENDING")
    (hconf : env.twilioConfigured = true)
    (hphone : pyTruthy b.phone = true) :
    countSms (approve_booking env id s).2.1 = 1 ∧
    ((b.call_time = none ∨ ∃ t, b.call_time = some t ∧ env.now.blt t = false) →
      countCalls (approve_booking env id s).2.1 = 1) ∧
    ((∃ t, b.call_time = some t ∧ env.now.blt t = true) →
      countCalls (approve_booking env id s).2.1 = 0) ∧
    (((approve_booking env id s).1.call_requests.find?
        (fun r => r.key == b.key)).map (fun r => r.status) =
      some (some "APPROVED")) := by
  have hfind := lookupBooking_find? id s b hl
  obtain ⟨tsms, hsms⟩ := send_status_sms_single env b.phone "APPROVED" hconf hphone
  have hsched : ∀ (h : Prop), True := fun _ => trivial
  unfold approve_booking
  rw [hl]
  simp only
  set s1 : Store := { s with
    call_requests := updateFirst (fun r => r.key == b.key)
      (fun r => { r with status := some "APPROVED" }) s.call_requests } with hs1
  have hs1find : (s1.call_requests.find? (fun r => r.key == b.key)).map
      (fun r => r.status) = some (some "APPROVED") := by
    show ((updateFirst (fun r => r.key == b.key)
        (fun r => { r with status := some "APPROVED" }) s.call_requests).find?
        (fun r => r.key == b.key)).map (fun r => r.status) = some (some "APPROVED")
    rw [find?_updateFirst_self (fun r => r.key == b.key)
      (fun r => { r with status := some "APPROVED" }) s.call_requests
      (fun x => rfl), hfind]
    rfl
  by_cases hlater : (match b.call_time with
      | some t => env.now.blt t
      | none => false) = true
  · rw [if_pos hlater]
    refine ⟨?_, ?_, ?_, ?_⟩
    · rw [hsms]; rfl
    · intro hc
      exfalso
      rcases hc with hnone | ⟨t, ht, hf⟩
      · rw [hnone] at hlater
        exact Bool.false_ne_true hlater
      · rw [ht] at hlater
        have hbt : env.now.blt t = true := hlater
        rw [hf] at hbt
        exact Bool.false_ne_true hbt
    · intro _
      rw [hsms]; rfl
    · exact hs1find
  · rw [if_neg hlater]
    rw [if_pos hphone]
    obtain ⟨tcall, hcall⟩ :=
      trigger_effects_single env b.key.asStr (pyStr b.phone) s1 hconf
    refine ⟨?_, ?_, ?_, ?_⟩
    · show countSms (send_status_sms env b.phone "APPROVED" ++
        (trigger_voice_call env b.key.asStr (pyStr b.phone) s1).2.1) = 1
      rw [hsms, hcall]
      rfl
    · intro _
      show countCalls (send_status_sms env b.phone "APPROVED" ++
        (trigger_voice_call env b.key.asStr (pyStr b.phone) s1).2.1) = 1
      rw [hsms, hcall]
      rfl
    · intro hc
      exfalso
      rcases hc with ⟨t, ht, htrue⟩
      rw [ht] at hlater
      exact hlater htrue
    · show (((trigger_voice_call env b.key.asStr (pyStr b.phone) s1).1.call_requests.find?
          (fun r => r.key == b.key)).map (fun r => r.status)) = some (some "APPROVED")
      rw [trigger_store_status]
      exact hs1find

/-- Witness for C3's amended statement at a concrete booking with a
phone and no scheduled time. -/
theorem C3_approve_booking_spec_witness :
    countSms (approve_booking exEnv "a6a6a6a6a6a6a6a6a6a6a6a6" sC1).2.1 = 1 ∧
    countCalls (approve_booking exEnv "a6a6a6a6a6a6a6a6a6a6a6a6" sC1).2.1 = 1 ∧
    (((approve_booking exEnv "a6a6a6a6a6a6a6a6a6a6a6a6" sC1).1.call_requests.find?
        (fun r => r.key == exCall.key)).map (fun r => r.status) =
      some (some "APPROVED")) := by
  have h := C3_approve_booking_spec exEnv "a6a6a6a6a6a6a6a6a6a6a6a6" sC1 exCall
    (by decide) (by decide) (by decide) (by decide)
  exact ⟨h.1, h.2.1 (Or.inl rfl), h.2.2.2⟩

/-! ### C6: API-key gated reads -/

theorem mem_insertByCreatedDesc {x y : CallReq} {l : List CallReq} :
    y ∈ insertByCreatedDesc x l ↔ y = x ∨ y ∈ l := by
  induction l with
  | nil => simp [insertByCreatedDesc]
  | cons z zs ih =>
      by_cases h : createdGe x z = true
      · simp [insertByCreatedDesc, h]
      · simp only [insertByCreatedDesc, if_neg h, List.mem_cons, ih]
        tauto

theorem mem_sortByCreatedDesc {y : CallReq} {l : List CallReq} :
    y ∈ sortByCreatedDesc l ↔ y ∈ l := by
  induction l with
  | nil => simp [sortByCreatedDesc]
  | cons x xs ih =>
      show y ∈ insertByCreatedDesc x (sortByCreatedDesc xs) ↔ _
      rw [mem_insertByCreatedDesc]
      simp [ih]

/-- Claim C6 (confirmed): `GET /api/calls` returns 401 with no data when
the `x-api-key` header is missing/falsy or unknown; with a key of scope
`SINGLE_APP` bound to an app, every returned record's `app_name` equals
the bound app (issuance guarantees a SINGLE_APP key always carries a
truthy `app_name`). -/
theorem C6_api_calls_auth_and_scope (s : Store) :
    (api_calls s none = ApiCallsResult.err "API key required" 401) ∧
    (∀ k : String, pyTruthy (some k) = true →
      s.api_keys.find? (fun a => a.api_key == k) = none →
      api_calls s (some k) = ApiCallsResult.err "Invalid API key" 401) ∧
    (∀ (k an : String) (api : ApiKeyDoc) (cid : Option String) (n : Nat)
        (d : List CallReq),
      pyTruthy (some k) = true →
      s.api_keys.find? (fun a => a.api_key == k) = some api →
      api.scope = some "SINGLE_APP" → api.app_name = some an →
      pyTruthy (some an) = true →
      api_calls s (some k) = ApiCallsResult.ok cid n d →
      ∀ r ∈ d, r.app_name = some an) := by
  refine ⟨rfl, ?_, ?_⟩
  · intro k hk hnone
    unfold api_calls
    rw [hk]
    simp only [Bool.not_true, Bool.false_eq_true, if_false, pyStr]
    rw [hnone]
  · intro k an api cid n d hk hfind hscope happ htruthy heq
    unfold api_calls at heq
    rw [hk] at heq
    simp only [Bool.not_true, Bool.false_eq_true, if_false, pyStr] at heq
    rw [hfind] at heq
    simp only [hscope, happ, Option.getD_some] at heq
    rw [htruthy] at heq
    simp only [ApiCallsResult.ok.injEq] at heq
    intro r hrd
    rw [← heq.2.2] at hrd
    have hmem := mem_sortByCreatedDesc.mp hrd
    have hq := List.of_mem_filter hmem
    simp only [Bool.and_eq_true] at hq
    have h2 := hq.2
    simp at h2
    exact h2

/-- A concrete `SINGLE_APP` API key bound to the "Hotel" app. -/
def exApiKey : ApiKeyDoc :=
  { key := DocKey.oid "a7a7a7a7a7a7a7a7a7a7a7a7", client_id := some exCid,
    api_key := "AK1", scope := some "SINGLE_APP", app_name := some "Hotel",
    status := some "active" }

/-- A concrete booking of `exClient` under a different app. -/
def exCallSpa : CallReq :=
  { emptyCallReq (DocKey.oid "a9a9a9a9a9a9a9a9a9a9a9a9") with
    client_id := some exCid, app_name := some "Spa",
    name := some "Riya", phone := some "9123456780",
    status := some "PENDING", created_at := some ⟨1, 0⟩ }

/-- The store used by the `GET /api/calls` scenarios. -/
def sC6 : Store :=
  { emptyStore with
    api_keys := [exApiKey],
    call_requests := [exCall, exCallSpa] }

/-- Witness for C6: at the concrete store, the SINGLE_APP key's data is
all "Hotel" records. -/
theorem C6_api_calls_auth_and_scope_witness :
    ∀ r ∈ [exCall], r.app_name = some "Hotel" :=
  (C6_api_calls_auth_and_scope sC6).2.2 "AK1" "Hotel" exApiKey (some exCid) 1
    [exCall] (by decide) (by decide) (by decide) (by decide) (by decide)
    (by decide)

/-! ### C8: the 7-day trends -/

/-- Whether a CallRequest was created on calendar day `d`. -/
def dayIs (d : Int) (r : CallReq) : Bool :=
  match r.created_at with
  | some t => t.days == d
  | none => false

theorem mem_insertDayAsc {x y : Int × Nat} {l : List (Int × Nat)} :
    y ∈ insertDayAsc x l ↔ y = x ∨ y ∈ l := by
  induction l with
  | nil => simp [insertDayAsc]
  | cons z zs ih =>
      by_cases h : x.1 ≤ z.1
      · simp [insertDayAsc, h]
      · simp only [insertDayAsc, if_neg h, List.mem_cons, ih]
        tauto

theorem mem_sortByDayAsc {y : Int × Nat} {l : List (Int × Nat)} :
    y ∈ sortByDayAsc l ↔ y ∈ l := by
  induction l with
  | nil => simp [sortByDayAsc]
  | cons x xs ih =>
      show y ∈ insertDayAsc x (sortByDayAsc xs) ↔ _
      rw [mem_insertDayAsc]
      simp [ih]

theorem groupCounts_val (docs : List CallReq) :
    ∀ p ∈ groupCountsByDay docs, p.2 = (dayKeys docs).count p.1 := by
  intro p hp
  unfold groupCountsByDay at hp
  obtain ⟨k, _, hpk⟩ := List.mem_map.mp (mem_sortByDayAsc.mp hp)
  rw [← hpk]

theorem lookupCount_eq_of (l : List (Int × Nat)) (f : Int → Nat) (d : Int)
    (hl : ∀ p ∈ l, p.2 = f p.1)
    (h0 : (∀ p ∈ l, p.1 ≠ d) → f d = 0) :
    lookupCount l d = f d := by
  unfold lookupCount
  cases hf : l.find? (fun p => p.1 == d) with
  | none =>
      have hnone := List.find?_eq_none.mp hf
      have hne : ∀ p ∈ l, p.1 ≠ d := by
        intro p hp
        have := hnone p hp
        simpa using this
      rw [h0 hne]
      rfl
  | some p =>
      have hpd : p.1 = d := by
        have := List.find?_some hf
        simpa using this
      have hpm : p ∈ l := List.mem_of_find?_eq_some hf
      have := hl p hpm
      simp [this, hpd]

theorem lookupCount_groupCounts (docs : List CallReq) (d : Int) :
    lookupCount (groupCountsByDay docs) d = (dayKeys docs).count d := by
  apply lookupCount_eq_of
  · exact groupCounts_val docs
  · intro hno
    rw [List.count_eq_zero]
    intro hd
    have hdd := List.mem_dedup.mpr hd
    have hmm : (d, (dayKeys docs).count d) ∈
        (dayKeys docs).dedup.map (fun k => (k, (dayKeys docs).count k)) :=
      List.mem_map_of_mem _ hdd
    have hmem : (d, (dayKeys docs).count d) ∈ groupCountsByDay docs := by
      unfold groupCountsByDay
      exact mem_sortByDayAsc.mpr hmm
    exact hno _ hmem rfl

theorem count_dayKeys (docs : List CallReq) (d : Int) :
    (dayKeys docs).count d = docs.countP (dayIs d) := by
  induction docs with
  | nil => rfl
  | cons r rs ih =>
      cases hc : r.created_at with
      | none =>
          have h1 : dayKeys (r :: rs) = dayKeys rs := by
            unfold dayKeys
            simp [List.filterMap_cons, hc]
          rw [h1, ih, List.countP_cons]
          simp [dayIs, hc]
      | some t =>
          have h1 : dayKeys (r :: rs) = t.days :: dayKeys rs := by
            unfold dayKeys
            simp [List.filterMap_cons, hc]
          rw [h1, List.count_cons, ih, List.countP_cons]
          simp only [dayIs, hc]

/-- A concrete booking created on the fixture day `exEnv.utcnow`. -/
def exCallC8 : CallReq :=
  { emptyCallReq (DocKey.oid "abababababababababababab") with
    client_id := some exCid, app_name := some "Hotel",
    name := some "Dev", phone := some "9876543210",
    status := some "PENDING", created_at := some exEnv.utcnow }

/-- The store used by the trend scenarios: one submission today, none on
the six preceding days. -/
def sC8 : Store :=
  { emptyStore with call_requests := [exCallC8] }

/-- Claim C8 (counterexample): at a store with one submission today and
none on the other six of the last 7 days, the admin pipelines
(`super_dashboard` / `system_analytics`) return a single bucket — days
with no submissions are absent, not zero-filled — while the client
`analytics` trend does return 7 buckets. -/
theorem C8_admin_trend_not_zero_filled :
    (admin_calls_per_day exEnv sC8).length = 1 ∧
    ¬((admin_calls_per_day exEnv sC8).length = 7) ∧
    (analytics_trend exEnv exCid sC8).length = 7 := by
  refine ⟨?_, ?_, ?_⟩
  · decide
  · decide
  · decide

/-- Claim C8 (amended): the client `analytics` trend is date-bucketed
and zero-filled — it is exactly one bucket per each of the last 7
calendar days, the bucket for day `today - 6 + i` counting the client's
requests created that day (0 when there are none); the admin pipelines
are not zero-filled: every bucket they return has count at least 1, so
days without submissions do not appear. -/
theorem C8_trend_shapes (env : Env) (cid : String) (s : Store) :
    analytics_trend env cid s =
      (List.range 7).map (fun i =>
        (env.utcnow.days - 6 + Int.ofNat i,
         s.call_requests.countP (fun r =>
           r.client_id == some cid && dayIs (env.utcnow.days - 6 + Int.ofNat i) r))) ∧
    (∀ p ∈ admin_calls_per_day env s, 1 ≤ p.2) := by
  constructor
  · unfold analytics_trend
    apply List.map_congr_left
    intro i _
    have hd : env.utcnow.days - (6 - Int.ofNat i) = env.utcnow.days - 6 + Int.ofNat i := by
      omega
    rw [hd]
    refine congrArg (fun v => (env.utcnow.days - 6 + Int.ofNat i, v)) ?_
    rw [lookupCount_groupCounts, count_dayKeys, List.countP_filter]
    apply List.countP_congr
    intro r _
    by_cases hdy : dayIs (env.utcnow.days - 6 + Int.ofNat i) r = true
    · have hgte : matchGteCreated (env.utcnow.subDays 7) r = true := by
        unfold dayIs at hdy
        unfold matchGteCreated
        cases hc : r.created_at with
        | none => rw [hc] at hdy; exact absurd hdy (by simp)
        | some t =>
            rw [hc] at hdy
            have ht : t.days = env.utcnow.days - 6 + Int.ofNat i := by
              simpa using hdy
            unfold PyDateTime.ble PyDateTime.subDays
            have hnn : 0 ≤ Int.ofNat i := Int.ofNat_nonneg i
            have : env.utcnow.days - 7 < t.days := by omega
            simp [this]
      rw [hdy, hgte]
      cases hcl : (r.client_id == some cid) <;> simp
    · have hdy' : dayIs (env.utcnow.days - 6 + Int.ofNat i) r = false :=
        Bool.not_eq_true _ |>.mp hdy
      rw [hdy']
      simp
  · intro p hp
    unfold admin_calls_per_day at hp
    have hv := groupCounts_val _ p hp
    have hk : p.1 ∈ dayKeys (s.call_requests.filter
        (matchGteCreated (env.utcnow.subDays 7))) := by
      unfold groupCountsByDay at hp
      obtain ⟨k, hk, hpk⟩ := List.mem_map.mp (mem_sortByDayAsc.mp hp)
      have : p.1 = k := by rw [← hpk]
      rw [this]
      exact List.mem_dedup.mp hk
    rw [hv]
    exact List.count_pos_iff.mpr hk

/-- Witness for C8's amended statement: the admin buckets at the
concrete store all have positive counts. -/
theorem C8_trend_shapes_witness :
    ∀ p ∈ admin_calls_per_day exEnv sC8, 1 ≤ p.2 :=
  (C8_trend_shapes exEnv exCid sC8).2

/-! ### C2: the scheduled-call poller -/

/-- The store component of one poller loop iteration. -/
def pollerStepStore (env : Env) (st : Store) (call : CallReq) : Store :=
  let (st', _fx, ok) := trigger_voice_call env call.key.asStr (pyStr call.phone) st
  if ok then st'
  else
    { st' with
      call_requests := updateFirst (fun r => r.key == call.key)
        (fun r => { r with call_error := some "Failed to trigger scheduled call" })
        st'.call_requests }

theorem pollerStep_fst (env : Env) (acc : Store × List Effect) (call : CallReq) :
    (pollerStep env acc call).1 = pollerStepStore env acc.1 call := by
  unfold pollerStep pollerStepStore
  dsimp only
  rcases htr : trigger_voice_call env call.key.asStr (pyStr call.phone) acc.1 with
    ⟨st', fx', ok⟩
  cases ok
  · rfl
  · rfl

/-- The outbound-call effect the poller emits for a matched document. -/
def pollerEff (p : CallReq) : Effect :=
  Effect.callAttempt p.key.asStr (targetPhoneForCall (pyStr p.phone))

theorem pollerStep_parts (env : Env) (hconf : env.twilioConfigured = true)
    (st : Store) (fx : List Effect) (p : CallReq) :
    pollerStep env (st, fx) p = (pollerStepStore env st p, fx ++ [pollerEff p]) := by
  unfold pollerStep pollerStepStore pollerEff trigger_voice_call
  simp only [hconf, Bool.not_true, Bool.false_eq_true, if_false]
  by_cases hok : env.callCreateOk p.key.asStr = true
  · rw [if_pos hok]
    rfl
  · rw [if_neg hok]
    rfl

theorem pollerStep_snd_noconf (env : Env)
    (hconf : env.twilioConfigured = false) (acc : Store × List Effect)
    (p : CallReq) :
    (pollerStep env acc p).2 = acc.2 := by
  unfold pollerStep trigger_voice_call
  simp [hconf]

theorem poller_fold_snd (env : Env) (hconf : env.twilioConfigured = true)
    (l : List CallReq) :
    ∀ (st : Store) (fx : List Effect),
      (l.foldl (pollerStep env) (st, fx)).2 = fx ++ l.map pollerEff := by
  induction l with
  | nil => intro st fx; simp
  | cons p ps ih =>
      intro st fx
      rw [List.foldl_cons, pollerStep_parts env hconf]
      rw [ih]
      simp

theorem key_beq_false_of_asStr_ne {a k : DocKey} (h : a.asStr ≠ k.asStr) :
    (a == k) = false := by
  cases hb : a == k
  · rfl
  · have : a = k := by simpa using hb
    rw [this] at h
    exact absurd rfl h

theorem updateByProbedId_find?_ne (bid : String) (f : CallReq → CallReq)
    (hf : ∀ x, (f x).key = x.key) (l : List CallReq) (K : DocKey)
    (hne : bid ≠ K.asStr) :
    (updateByProbedId bid f l).find? (fun r => r.key == K) =
      l.find? (fun r => r.key == K) := by
  unfold updateByProbedId
  by_cases hb : (isValidOid bid && l.any (fun r => r.key == DocKey.oid bid)) = true
  · rw [if_pos hb]
    apply find?_updateFirst_ne
    · intro x hx
      have hxk : x.key = DocKey.oid bid := by simpa using hx
      apply key_beq_false_of_asStr_ne
      rw [hxk]
      exact hne
    · intro x
      rw [hf]
  · rw [if_neg hb]
    apply find?_updateFirst_ne
    · intro x hx
      have hxk : x.key = DocKey.strId bid := by simpa using hx
      apply key_beq_false_of_asStr_ne
      rw [hxk]
      exact hne
    · intro x
      rw [hf]

theorem pollerStepStore_find?_ne (env : Env) (p : CallReq) (st : Store)
    (K : DocKey) (hne : p.key.asStr ≠ K.asStr) :
    (pollerStepStore env st p).call_requests.find? (fun r => r.key == K) =
      st.call_requests.find? (fun r => r.key == K) := by
  have herr : ∀ (l : List CallReq),
      (updateFirst (fun r => r.key == p.key)
        (fun r => { r with call_error := some "Failed to trigger scheduled call" })
        l).find? (fun r => r.key == K) = l.find? (fun r => r.key == K) := by
    intro l
    apply find?_updateFirst_ne
    · intro x hx
      have hxk : x.key = p.key := by simpa using hx
      apply key_beq_false_of_asStr_ne
      rw [hxk]
      exact hne
    · intro x
      rfl
  unfold pollerStepStore trigger_voice_call
  by_cases hc : env.twilioConfigured = true
  · simp only [hc, Bool.not_true, Bool.false_eq_true, if_false]
    by_cases hok : env.callCreateOk p.key.asStr = true
    · rw [if_pos hok]
      exact updateByProbedId_find?_ne p.key.asStr (setInitiated env)
        (fun x => rfl) st.call_requests K hne
    · rw [if_neg hok]
      exact herr st.call_requests
  · rw [Bool.not_eq_true] at hc
    simp only [hc, Bool.not_false, if_true]
    exact herr st.call_requests

theorem pollerStepStore_keys (env : Env) (st : Store) (p : CallReq) :
    (pollerStepStore env st p).call_requests.map (fun r => r.key) =
      st.call_requests.map (fun r => r.key) := by
  have hupd : ∀ (q : CallReq → Bool) (f : CallReq → CallReq),
      (∀ x, (f x).key = x.key) → ∀ (l : List CallReq),
      (updateFirst q f l).map (fun r => r.key) = l.map (fun r => r.key) := by
    intro q f hf l
    exact updateFirst_map q f _ (fun x => hf x) l
  have hprobe : ∀ (l : List CallReq),
      (updateByProbedId p.key.asStr (setInitiated env) l).map (fun r => r.key) =
        l.map (fun r => r.key) := by
    intro l
    unfold updateByProbedId
    by_cases hb : (isValidOid p.key.asStr
        && l.any (fun r => r.key == DocKey.oid p.key.asStr)) = true
    · rw [if_pos hb]
      exact hupd (fun r => r.key == DocKey.oid p.key.asStr) (setInitiated env)
        (fun x => rfl) l
    · rw [if_neg hb]
      exact hupd (fun r => r.key == DocKey.strId p.key.asStr) (setInitiated env)
        (fun x => rfl) l
  unfold pollerStepStore trigger_voice_call
  by_cases hc : env.twilioConfigured = true
  · simp only [hc, Bool.not_true, Bool.false_eq_true, if_false]
    by_cases hok : env.callCreateOk p.key.asStr = true
    · rw [if_pos hok]
      exact hprobe st.call_requests
    · rw [if_neg hok]
      exact hupd (fun r => r.key == p.key)
        (fun r => { r with call_error := some "Failed to trigger scheduled call" })
        (fun x => rfl) st.call_requests
  · rw [Bool.not_eq_true] at hc
    simp only [hc, Bool.not_false, if_true]
    exact hupd (fun r => r.key == p.key)
      (fun r => { r with call_error := some "Failed to trigger scheduled call" })
      (fun x => rfl) st.call_requests

theorem poller_fold_find?_ne (env : Env) (K : DocKey) (l : List CallReq) :
    ∀ (acc : Store × List Effect), (∀ p ∈ l, p.key.asStr ≠ K.asStr) →
      ((l.foldl (pollerStep env) acc).1).call_requests.find? (fun r => r.key == K) =
        acc.1.call_requests.find? (fun r => r.key == K) := by
  induction l with
  | nil => intro acc _; rfl
  | cons p ps ih =>
      intro acc hne
      rw [List.foldl_cons]
      rw [ih (pollerStep env acc p) (fun q hq => hne q (List.mem_cons_of_mem _ hq))]
      rw [pollerStep_fst]
      exact pollerStepStore_find?_ne env p acc.1 K (hne p (List.mem_cons_self _ _))

theorem poller_fold_keys (env : Env) (l : List CallReq) :
    ∀ (acc : Store × List Effect),
      ((l.foldl (pollerStep env) acc).1).call_requests.map (fun r => r.key) =
        acc.1.call_requests.map (fun r => r.key) := by
  induction l with
  | nil => intro acc; rfl
  | cons p ps ih =>
      intro acc
      rw [List.foldl_cons, ih (pollerStep env acc p), pollerStep_fst]
      exact pollerStepStore_keys env acc.1 p

theorem find?_key_of_mem {l : List CallReq} {r : CallReq} (hm : r ∈ l)
    (hp : l.Pairwise (fun a b => a.key.asStr ≠ b.key.asStr)) :
    l.find? (fun x => x.key == r.key) = some r := by
  induction l with
  | nil => cases hm
  | cons x xs ih =>
      rw [List.pairwise_cons] at hp
      by_cases hbx : (x.key == r.key) = true
      · have hxr : x.key = r.key := by simpa using hbx
        rcases List.mem_cons.mp hm with hrx | hrxs
        · rw [hrx] at hbx ⊢
          simp [List.find?, hbx]
        · exfalso
          have := hp.1 r hrxs
          rw [hxr] at this
          exact this rfl
      · have hrx : r ≠ x := by
          intro h
          rw [h] at hbx
          simp at hbx
        have hrxs : r ∈ xs := by
          rcases List.mem_cons.mp hm with h | h
          · exact absurd h hrx
          · exact h
        have hbxf : (x.key == r.key) = false := Bool.not_eq_true _ |>.mp hbx
        simp only [List.find?, hbxf]
        exact ih hrxs hp.2

theorem mem_eq_of_find?_pairwise {l : List CallReq} {K : DocKey}
    {x p : CallReq}
    (hp : l.Pairwise (fun a b => a.key.asStr ≠ b.key.asStr))
    (hf : l.find? (fun y => y.key == K) = some x) (hm : p ∈ l)
    (hs : p.key.asStr = K.asStr) : p = x := by
  induction l with
  | nil => cases hm
  | cons z zs ih =>
      rw [List.pairwise_cons] at hp
      by_cases hbz : (z.key == K) = true
      · have hzx : z = x := by
          simp only [List.find?, hbz] at hf
          exact Option.some.inj hf
        have hzK : z.key = K := by simpa using hbz
        rcases List.mem_cons.mp hm with hpz | hpzs
        · rw [hpz, hzx]
        · exfalso
          have hzp := hp.1 p hpzs
          rw [hzK] at hzp
          rw [hs] at hzp
          exact hzp rfl
      · have hbzf : (z.key == K) = false := Bool.not_eq_true _ |>.mp hbz
        simp only [List.find?, hbzf] at hf
        rcases List.mem_cons.mp hm with hpz | hpzs
        · exfalso
          have hx : x ∈ zs := List.mem_of_find?_eq_some hf
          have hxK := List.find?_some hf
          have hxK' : x.key = K := by simpa using hxK
          have hzx := hp.1 x hx
          rw [hxK'] at hzx
          rw [← hpz] at hzx
          rw [hs] at hzx
          exact hzx rfl
        · exact ih hp.2 hf hpzs

theorem pollerStepStore_find?_self (env : Env) (p : CallReq) (st : Store)
    (hconf : env.twilioConfigured = true)
    (hok : env.callCreateOk p.key.asStr = true)
    (hwfp : oidWf p.key = true)
    (hfind : st.call_requests.find? (fun r => r.key == p.key) = some p)
    (hdist : st.call_requests.Pairwise (fun a b => a.key.asStr ≠ b.key.asStr)) :
    (pollerStepStore env st p).call_requests.find? (fun r => r.key == p.key) =
      some (setInitiated env p) := by
  unfold pollerStepStore trigger_voice_call
  simp only [hconf, Bool.not_true, Bool.false_eq_true, if_false]
  rw [if_pos hok]
  show (updateByProbedId p.key.asStr (setInitiated env) st.call_requests).find?
      (fun r => r.key == p.key) = some (setInitiated env p)
  unfold updateByProbedId
  cases hk : p.key with
  | oid X =>
      have hX : isValidOid X = true := by
        rw [hk] at hwfp
        exact hwfp
      have hmemp : p ∈ st.call_requests := List.mem_of_find?_eq_some hfind
      have hany : st.call_requests.any (fun r => r.key == DocKey.oid X) = true := by
        refine List.any_eq_true.mpr ⟨p, hmemp, ?_⟩
        rw [hk]
        simp
      simp only [DocKey.asStr]
      simp only [hX, hany, Bool.and_self, if_true]
      rw [find?_updateFirst_self (fun r => r.key == DocKey.oid X) (setInitiated env)
        st.call_requests (fun x => rfl)]
      rw [← hk, hfind]
      rfl
  | strId X =>
      have hmemp : p ∈ st.call_requests := List.mem_of_find?_eq_some hfind
      have hanyf : st.call_requests.any (fun r => r.key == DocKey.oid X) = false := by
        cases hA : st.call_requests.any (fun r => r.key == DocKey.oid X)
        · rfl
        · exfalso
          obtain ⟨x, hxm, hxk⟩ := List.any_eq_true.mp hA
          have hxk' : x.key = DocKey.oid X := by simpa using hxk
          have hxp : x ≠ p := by
            intro h
            rw [h, hk] at hxk'
            cases hxk'
          have hRsym : Symmetric (fun a b : CallReq => a.key.asStr ≠ b.key.asStr) := by
            intro a b hab
            exact fun h => hab h.symm
          have hR := List.Pairwise.forall hRsym hdist hxm hmemp hxp
          rw [hxk', hk] at hR
          exact hR rfl
      simp only [DocKey.asStr]
      simp only [hanyf, Bool.and_false, Bool.false_eq_true, if_false]
      rw [find?_updateFirst_self (fun r => r.key == DocKey.strId X) (setInitiated env)
        st.call_requests (fun x => rfl)]
      rw [← hk, hfind]
      rfl

/-- Claim C2 (confirmed): one poller tick over a store containing an
APPROVED, due, not-yet-initiated CallRequest places exactly one call for
it and stores `call_initiated = true`; an immediately following tick
(under any environment) places no further call for that request.
Hypotheses: Twilio configured and the call succeeds, `_id`s well formed
and pairwise distinct as strings. -/
theorem C2_poller_triggers_once (env : Env) (s : Store) (r : CallReq)
    (hconf : env.twilioConfigured = true)
    (hok : env.callCreateOk r.key.asStr = true)
    (hmem : r ∈ s.call_requests)
    (hmatch : pollerMatches env.now r = true)
    (hwf : oidWf r.key = true)
    (hdist : s.call_requests.Pairwise (fun a b => a.key.asStr ≠ b.key.asStr)) :
    attemptsFor r.key.asStr (check_scheduled_calls env s).2 = 1 ∧
    ((check_scheduled_calls env s).1.call_requests.find?
        (fun x => x.key == r.key) = some (setInitiated env r)) ∧
    (∀ env₂ : Env,
      attemptsFor r.key.asStr
        (check_scheduled_calls env₂ (check_scheduled_calls env s).1).2 = 0) := by
  have hpmem : r ∈ s.call_requests.filter (pollerMatches env.now) :=
    List.mem_filter.mpr ⟨hmem, hmatch⟩
  have hpdist : (s.call_requests.filter (pollerMatches env.now)).Pairwise
      (fun a b => a.key.asStr ≠ b.key.asStr) :=
    hdist.sublist (List.filter_sublist _)
  obtain ⟨l₁, l₂, hsplit⟩ := List.append_of_mem hpmem
  have hpdist' := hpdist
  rw [hsplit] at hpdist'
  have hcross := (List.pairwise_append.mp hpdist').2.2
  have hl₁ : ∀ p ∈ l₁, p.key.asStr ≠ r.key.asStr := by
    intro p hp
    exact hcross p hp r (List.mem_cons_self _ _)
  have htail := (List.pairwise_append.mp hpdist').2.1
  rw [List.pairwise_cons] at htail
  have hl₂ : ∀ p ∈ l₂, p.key.asStr ≠ r.key.asStr := by
    intro p hp
    exact fun h => htail.1 p hp h.symm
  have part1 : attemptsFor r.key.asStr (check_scheduled_calls env s).2 = 1 := by
    unfold check_scheduled_calls
    rw [poller_fold_snd env hconf _ s []]
    unfold attemptsFor
    rw [List.nil_append, List.countP_map, hsplit]
    simp only [Function.comp_def]
    rw [List.countP_append, List.countP_cons]
    have hz₁ : l₁.countP (fun p =>
        (match pollerEff p with
          | Effect.callAttempt b _ => b == r.key.asStr
          | _ => false)) = 0 := by
      rw [List.countP_eq_zero]
      intro p hp
      show ¬(p.key.asStr == r.key.asStr) = true
      simp [hl₁ p hp]
    have hz₂ : l₂.countP (fun p =>
        (match pollerEff p with
          | Effect.callAttempt b _ => b == r.key.asStr
          | _ => false)) = 0 := by
      rw [List.countP_eq_zero]
      intro p hp
      show ¬(p.key.asStr == r.key.asStr) = true
      simp [hl₂ p hp]
    rw [hz₁, hz₂]
    show 0 + (0 + if (r.key.asStr == r.key.asStr) = true then 1 else 0) = 1
    simp
  have hfind0 : s.call_requests.find? (fun x => x.key == r.key) = some r :=
    find?_key_of_mem hmem hdist
  have part2 : (check_scheduled_calls env s).1.call_requests.find?
      (fun x => x.key == r.key) = some (setInitiated env r) := by
    unfold check_scheduled_calls
    rw [hsplit, List.foldl_append, List.foldl_cons]
    have hacc1 : ((l₁.foldl (pollerStep env) (s, [])).1).call_requests.find?
        (fun x => x.key == r.key) = some r := by
      rw [poller_fold_find?_ne env r.key l₁ (s, []) hl₁]
      exact hfind0
    have hkeys1 : ((l₁.foldl (pollerStep env) (s, [])).1).call_requests.map
        (fun x => x.key) = s.call_requests.map (fun x => x.key) :=
      poller_fold_keys env l₁ (s, [])
    have hdist1 : ((l₁.foldl (pollerStep env) (s, [])).1).call_requests.Pairwise
        (fun a b => a.key.asStr ≠ b.key.asStr) := by
      have h1 := (List.pairwise_map.mpr
        (hdist.imp (fun {a b} h => h))).sublist (List.Sublist.refl _)
      have h2 : (s.call_requests.map (fun x => x.key)).Pairwise
          (fun a b : DocKey => a.asStr ≠ b.asStr) := by
        rw [List.pairwise_map]
        exact hdist
      rw [← hkeys1] at h2
      rw [List.pairwise_map] at h2
      exact h2
    rw [poller_fold_find?_ne env r.key l₂ _ hl₂]
    rw [pollerStep_fst]
    exact pollerStepStore_find?_self env r _ hconf hok hwf hacc1 hdist1
  refine ⟨part1, part2, ?_⟩
  intro env₂
  set s1 := (check_scheduled_calls env s).1 with hs1def
  have hkeysAll : s1.call_requests.map (fun x => x.key) =
      s.call_requests.map (fun x => x.key) := by
    rw [hs1def]
    unfold check_scheduled_calls
    exact poller_fold_keys env _ (s, [])
  have hdistAll : s1.call_requests.Pairwise
      (fun a b => a.key.asStr ≠ b.key.asStr) := by
    have h2 : (s.call_requests.map (fun x => x.key)).Pairwise
        (fun a b : DocKey => a.asStr ≠ b.asStr) := by
      rw [List.pairwise_map]
      exact hdist
    rw [← hkeysAll] at h2
    rw [List.pairwise_map] at h2
    exact h2
  by_cases hc2 : env₂.twilioConfigured = true
  · unfold check_scheduled_calls
    rw [poller_fold_snd env₂ hc2 _ s1 []]
    unfold attemptsFor
    rw [List.nil_append, List.countP_map]
    rw [List.countP_eq_zero]
    intro p hp
    have hpm := List.mem_filter.mp hp
    show ¬(p.key.asStr == r.key.asStr) = true
    intro hbeq
    have hps : p.key.asStr = r.key.asStr := by simpa using hbeq
    have hpr : p = setInitiated env r :=
      mem_eq_of_find?_pairwise hdistAll part2 hpm.1 hps
    have hmatch2 := hpm.2
    rw [hpr] at hmatch2
    unfold pollerMatches setInitiated at hmatch2
    simp at hmatch2
  · rw [Bool.not_eq_true] at hc2
    unfold check_scheduled_calls
    have hsnd : ∀ (l : List CallReq) (acc : Store × List Effect),
        (l.foldl (pollerStep env₂) acc).2 = acc.2 := by
      intro l
      induction l with
      | nil => intro acc; rfl
      | cons p ps ih =>
          intro acc
          rw [List.foldl_cons, ih, pollerStep_snd_noconf env₂ hc2]
    rw [hsnd]
    rfl

/-- A concrete APPROVED, due, not-yet-initiated booking. -/
def exCallDue : CallReq :=
  { emptyCallReq (DocKey.oid "acacacacacacacacacacacac") with
    client_id := some exCid, app_name := some "Hotel",
    name := some "Asha", phone := some "9876543210",
    status := some "APPROVED", call_time := some ⟨0, 0⟩ }

/-- The store used by the poller scenario. -/
def sC2 : Store :=
  { emptyStore with call_requests := [exCallDue] }

/-- Witness for C2 at the concrete store. -/
theorem C2_poller_triggers_once_witness :
    attemptsFor exCallDue.key.asStr (check_scheduled_calls exEnv sC2).2 = 1 ∧
    ((check_scheduled_calls exEnv sC2).1.call_requests.find?
        (fun x => x.key == exCallDue.key) = some (setInitiated exEnv exCallDue)) ∧
    (∀ env₂ : Env,
      attemptsFor exCallDue.key.asStr
        (check_scheduled_calls env₂ (check_scheduled_calls exEnv sC2).1).2 = 0) :=
  C2_poller_triggers_once exEnv sC2 exCallDue (by decide) (by decide)
    (by decide) (by decide) (by decide) (by decide)

end MBSS
